import Mathlib

/-!
# Verification of the personfromvid configuration model and naming engine

This file gives a shallow embedding of the two source modules of the
repository — `personfromvid/output/naming_convention.py` (the filename
generation engine) and `personfromvid/data/config.py` (the validated
configuration model) — and proves or refutes the frozen claims about them.

Python strings are modelled as `List Char` (`PyStr`): Python `len`,
`startswith`, `join`, `replace` and slicing correspond to list length,
prefix, intercalate, map and append.  Python floats are modelled as `ℚ`
(the configuration code only compares and stores them), Python ints as
`ℤ`/`ℕ`, `pathlib.Path` values as plain strings (Python path equality
round-trips through `str` for the values at stake).
-/

namespace PersonFromVid

/-- Python strings, modelled as lists of characters. -/
abbrev PyStr := List Char

/-- Helper to write `PyStr` literals. -/
def pstr (s : String) : PyStr := s.data

/-! ## Decimal formatting: Python `f"{n:03d}"` for a non-negative int

`f"{n:03d}"` prints the decimal digits of `n` left-padded with `'0'` to a
minimum width of 3. -/

/-- Little-endian decimal digits, by structural recursion on a fuel
argument so that concrete instances evaluate inside the kernel. -/
def digitsAuxLE : Nat → Nat → List Nat
  | 0, _ => []
  | fuel + 1, n => if n = 0 then [] else n % 10 :: digitsAuxLE fuel (n / 10)

/-- Little-endian decimal digits of `n` (empty for 0), with enough fuel. -/
def digitsLE (n : Nat) : List Nat := digitsAuxLE n n

theorem digitsAuxLE_eq_digits :
    ∀ fuel n, n ≤ fuel → digitsAuxLE fuel n = Nat.digits 10 n := by
  intro fuel
  induction fuel with
  | zero =>
    intro n hn
    have : n = 0 := by omega
    subst this; simp [digitsAuxLE]
  | succ fuel ih =>
    intro n hn
    by_cases h0 : n = 0
    · subst h0; simp [digitsAuxLE]
    · rw [digitsAuxLE, if_neg h0]
      have hdiv : n / 10 ≤ fuel := by
        have := Nat.div_lt_self (Nat.pos_of_ne_zero h0) (by norm_num : 1 < 10)
        omega
      rw [ih (n / 10) hdiv]
      exact (Nat.digits_def' (by norm_num) (Nat.pos_of_ne_zero h0)).symm

theorem digitsLE_eq_digits (n : Nat) : digitsLE n = Nat.digits 10 n :=
  digitsAuxLE_eq_digits n n (Nat.le_refl n)

/-- Big-endian decimal digits of `n` (Python prints `0` as `"0"`). -/
def digitsBE (n : Nat) : List Nat :=
  if n = 0 then [0] else (digitsLE n).reverse

/-- A single decimal digit rendered as a character (`0 ↦ '0'`, …). -/
def digitChar10 (d : Nat) : Char := Char.ofNat (48 + d)

/-- Python `f"{n:03d}"`: decimal digits of `n`, left-padded with `'0'` to
width 3. -/
def format03 (n : Nat) : PyStr :=
  let ds := (digitsBE n).map digitChar10
  List.replicate (3 - ds.length) '0' ++ ds

/-- Inverse reading of a digit character. -/
def charToDigit (c : Char) : Nat := c.toNat - 48

/-- Decimal value of a digit string (used only to invert `format03`). -/
def unformat03 (s : PyStr) : Nat :=
  Nat.ofDigits 10 ((s.map charToDigit).reverse)

theorem charToDigit_digitChar10 {d : Nat} (h : d < 10) :
    charToDigit (digitChar10 d) = d := by
  interval_cases d <;> rfl

theorem digitsBE_lt_ten {n d : Nat} (h : d ∈ digitsBE n) : d < 10 := by
  unfold digitsBE at h
  split at h
  · simp at h; omega
  · rw [digitsLE_eq_digits, List.mem_reverse] at h
    exact Nat.digits_lt_base (by norm_num) h

theorem ofDigits_replicate_zero (k : Nat) :
    Nat.ofDigits 10 (List.replicate k 0) = 0 := by
  induction k with
  | zero => rfl
  | succ k ih => simp [List.replicate_succ, Nat.ofDigits_cons, ih]

theorem unformat03_format03 (n : Nat) : unformat03 (format03 n) = n := by
  have hmap : ((digitsBE n).map digitChar10).map charToDigit = digitsBE n := by
    rw [List.map_map]
    have h : ∀ d ∈ digitsBE n, (charToDigit ∘ digitChar10) d = id d :=
      fun d hd => charToDigit_digitChar10 (digitsBE_lt_ten hd)
    rw [List.map_congr_left h, List.map_id]
  have h0 : charToDigit '0' = 0 := rfl
  unfold unformat03 format03
  simp only [List.map_append, List.map_replicate, hmap, h0,
    List.reverse_append, List.reverse_replicate]
  rw [Nat.ofDigits_append, ofDigits_replicate_zero, mul_zero, add_zero]
  unfold digitsBE
  split
  · simp [Nat.ofDigits_cons, Nat.ofDigits_nil]; omega
  · rw [digitsLE_eq_digits, List.reverse_reverse, Nat.ofDigits_digits]

theorem format03_injective : Function.Injective format03 :=
  Function.LeftInverse.injective unformat03_format03

/-! ## Python string helpers used by `naming_convention.py` -/

/-- Python `s.replace(" ", "-")` (single-character pattern, hence a map). -/
def replaceSpaceDash (s : PyStr) : PyStr :=
  s.map (fun c => if c = ' ' then '-' else c)

/-- Python `s.lower()`, character-wise (the labels involved are ASCII). -/
def pyLower (s : PyStr) : PyStr := s.map Char.toLower

/-- Split a list at the first occurrence of `c`: if `c ∈ l` then
`l = before ++ c :: after` with `c ∉ before`. -/
def breakAtFirst (c : Char) : PyStr → Option (PyStr × PyStr)
  | [] => none
  | x :: xs =>
    if x = c then some ([], xs)
    else (breakAtFirst c xs).map (fun p => (x :: p.1, p.2))

theorem breakAtFirst_eq_some {c : Char} :
    ∀ {l a b : PyStr}, breakAtFirst c l = some (a, b) →
      l = a ++ c :: b ∧ c ∉ a := by
  intro l
  induction l with
  | nil => intro a b h; simp [breakAtFirst] at h
  | cons x xs ih =>
    intro a b h
    unfold breakAtFirst at h
    by_cases hx : x = c
    · rw [if_pos hx] at h
      simp only [Option.some.injEq, Prod.mk.injEq] at h
      obtain ⟨ha, hb⟩ := h
      subst ha; subst hb; subst hx
      simp
    · rw [if_neg hx, Option.map_eq_some'] at h
      obtain ⟨⟨p, q⟩, hpq, hf⟩ := h
      simp only [Prod.mk.injEq] at hf
      obtain ⟨ha, hb⟩ := hf
      subst ha; subst hb
      obtain ⟨hl, hnot⟩ := ih hpq
      subst hl
      refine ⟨rfl, ?_⟩
      simp only [List.mem_cons, not_or]
      exact ⟨fun h' => hx h'.symm, hnot⟩

/-- `pathlib.PurePath` stem/suffix of a bare filename: split at the last
dot, provided that dot is neither the first nor the last character
(`0 < i < len(name) - 1` in the library source); otherwise the stem is the
whole name and the suffix is empty. -/
def pySplitExt (name : PyStr) : PyStr × PyStr :=
  match breakAtFirst '.' name.reverse with
  | none => (name, [])
  | some (ra, rb) =>
    if rb = [] ∨ ra = [] then (name, [])
    else (rb.reverse, '.' :: ra.reverse)

/-- Structural description of `pySplitExt`: either no split happens, or the
name splits as `stem ++ '.' :: after` at the *last* dot (`'.' ∉ after`). -/
theorem pySplitExt_cases (name : PyStr) :
    pySplitExt name = (name, []) ∨
    ∃ after : PyStr, name = (pySplitExt name).1 ++ '.' :: after ∧
      (pySplitExt name).2 = '.' :: after ∧ '.' ∉ after := by
  unfold pySplitExt
  cases hb : breakAtFirst '.' name.reverse with
  | none => left; rfl
  | some p =>
    obtain ⟨ra, rb⟩ := p
    by_cases htriv : rb = [] ∨ ra = []
    · left; simp [htriv]
    · right
      obtain ⟨hrev, hnot⟩ := breakAtFirst_eq_some hb
      refine ⟨ra.reverse, ?_, ?_, ?_⟩
      · have := congrArg List.reverse hrev
        simpa [htriv] using this
      · simp [htriv]
      · simpa using hnot

/-- The final path component (after the last `/`), as in
`pathlib.Path(p).name` for the paths at stake (trailing-separator
normalization does not arise: the names involved end in their
extension). -/
def lastComponent (path : PyStr) : PyStr :=
  match breakAtFirst '/' path.reverse with
  | none => path
  | some (ra, _) => ra.reverse

/-- `pathlib.Path(p).stem` and `.suffix`: pathlib computes both on the
*final path component* (`Path(p).name`), so everything before the last
`/` is discarded before the last-dot split. -/
def pathStemSuffix (p : PyStr) : PyStr × PyStr :=
  pySplitExt (lastComponent p)

/-- The collision-suffix name `f"{stem}_{seq:03d}{ext}"` built by
`_ensure_unique_filename` (the `ext` here includes the leading dot,
matching `Path(...).suffix`). -/
def candName (stem sfx : PyStr) (seq : Nat) : PyStr :=
  stem ++ '_' :: (format03 seq ++ sfx)

theorem candName_injective (stem sfx : PyStr) :
    Function.Injective (candName stem sfx) := by
  intro a b h
  unfold candName at h
  have h1 := List.append_cancel_left h
  have h2 : format03 a ++ sfx = format03 b ++ sfx := by
    injection h1
  exact format03_injective (List.append_cancel_right h2)

/-- Pigeonhole: among the `used.length + 1` distinct candidate names
`candName stem sfx (start + n)`, `n ≤ used.length`, at least one is not in
`used` — the collision loop always finds a free name within
`used.length + 1` iterations. -/
theorem exists_fresh_candidate (used : List PyStr) (stem sfx : PyStr)
    (start : Nat) :
    ∃ n, n ≤ used.length ∧ candName stem sfx (start + n) ∉ used := by
  by_contra hcon
  push_neg at hcon
  have hmem : ∀ i ∈ (Finset.univ : Finset (Fin (used.length + 1))),
      candName stem sfx (start + i.val) ∈ used.toFinset := by
    intro i _
    exact List.mem_toFinset.2 (hcon i.val (Nat.lt_succ_iff.1 i.isLt))
  have hinj : Set.InjOn (fun i : Fin (used.length + 1) =>
      candName stem sfx (start + i.val))
      ↑(Finset.univ : Finset (Fin (used.length + 1))) := by
    intro a _ b _ hab
    have := candName_injective stem sfx hab
    exact Fin.ext (by omega)
  have hcard := Finset.card_le_card_of_injOn
    (fun i : Fin (used.length + 1) => candName stem sfx (start + i.val))
    hmem hinj
  have h1 : (Finset.univ : Finset (Fin (used.length + 1))).card =
      used.length + 1 := by simp
  have h2 := List.toFinset_card_le (l := used)
  omega

/-- The `while True` search of `_ensure_unique_filename`, run with enough
fuel: try `candName stem sfx start`, `start+1`, … until a name not in
`used` is found.  `findFreeSeq` with fuel `used.length + 1` computes
exactly the sequence number at which the Python loop stops
(`exists_fresh_candidate` shows the fuel always suffices). -/
def findFreeSeq (used : List PyStr) (stem sfx : PyStr) : Nat → Nat → Nat
  | start, 0 => start
  | start, fuel + 1 =>
    if candName stem sfx start ∈ used then
      findFreeSeq used stem sfx (start + 1) fuel
    else start

theorem findFreeSeq_spec (used : List PyStr) (stem sfx : PyStr) :
    ∀ fuel start,
      (∃ n, n < fuel ∧ candName stem sfx (start + n) ∉ used) →
      candName stem sfx (findFreeSeq used stem sfx start fuel) ∉ used ∧
        start ≤ findFreeSeq used stem sfx start fuel := by
  intro fuel
  induction fuel with
  | zero => intro start h; omega
  | succ fuel ih =>
    intro start h
    by_cases hc : candName stem sfx start ∈ used
    · obtain ⟨n, hn, hfree⟩ := h
      have hn0 : n ≠ 0 := by
        intro h0; subst h0; simp at hfree; exact hfree hc
      have hrec := ih (start + 1)
        ⟨n - 1, by omega, by
          have : start + 1 + (n - 1) = start + n := by omega
          rw [this]; exact hfree⟩
      simp only [findFreeSeq]
      rw [if_pos hc]
      exact ⟨hrec.1, by omega⟩
    · simp only [findFreeSeq]
      rw [if_neg hc]
      exact ⟨hc, Nat.le_refl _⟩

/-! ## Frame metadata consumed by the naming engine

`FrameData` itself lives outside the two source files under scrutiny; it is
modelled from the spec as the record of per-frame classification results the
engine reads. -/

/-- Modelled from the spec: a head-pose estimate carries a `direction`
label (the empty string stands for a missing/falsy label, matching the
`if best_head_pose and best_head_pose.direction` guard) and a confidence
used to pick the best pose. -/
structure HeadPose where
  direction : PyStr
  confidence : ℚ
deriving DecidableEq

/-- Modelled from the spec: a closeup detection exposes a `shot_type`
label (empty string = missing). -/
structure CloseupDetection where
  shotType : PyStr
deriving DecidableEq

/-- Modelled from the spec: per-frame record exposing zero-or-more
head-pose estimates and zero-or-more closeup detections. -/
structure FrameData where
  headPoses : List HeadPose
  closeupDetections : List CloseupDetection
deriving DecidableEq

/-- Modelled from the spec: `FrameData.get_best_head_pose()` returns the
highest-confidence head pose, or none when there are no head poses. -/
def getBestHeadPose (frame : FrameData) : Option HeadPose :=
  frame.headPoses.foldl
    (fun acc hp =>
      match acc with
      | none => some hp
      | some best => if best.confidence < hp.confidence then some hp else some best)
    none

/-! ## The naming engine (`NamingConvention`) -/

/-- State of one `NamingConvention` instance: the configured video base
name together with the mutable collision-tracking state
(`self._used_filenames : Set[str]`, modelled as the list of issued names,
and `self._sequence_counters : Dict[str, int]`, a `defaultdict(int)`
modelled as a total function defaulting to 0). -/
structure NamingConvention where
  videoBaseName : PyStr
  usedFilenames : List PyStr
  seqCounters : PyStr → Nat

/-- A freshly constructed engine: empty issued set, all counters 0. -/
def initNC (vbn : PyStr) : NamingConvention :=
  { videoBaseName := vbn, usedFilenames := [], seqCounters := fun _ => 0 }

/-- `reset_counters`: clears all issued-filename and sequence-counter
state. -/
def resetCounters (nc : NamingConvention) : NamingConvention :=
  { nc with usedFilenames := [], seqCounters := fun _ => 0 }

/-- `NamingConvention._get_head_direction`: the best head pose's direction,
spaces replaced by hyphens then lower-cased; empty if there is no head pose
or no direction. -/
def getHeadDirection (frame : FrameData) : PyStr :=
  match frame.headPoses with
  | [] => []
  | _ :: _ =>
    match getBestHeadPose frame with
    | none => []
    | some best =>
      if best.direction = [] then []
      else pyLower (replaceSpaceDash best.direction)

/-- `NamingConvention._get_shot_type`: the first closeup detection with a
non-empty shot type, normalized like the head direction; empty if none. -/
def getShotType (frame : FrameData) : PyStr :=
  match frame.closeupDetections.find? (fun c => !c.shotType.isEmpty) with
  | some c => pyLower (replaceSpaceDash c.shotType)
  | none => []

/-- The candidate full-frame filename before collision resolution:
`"_".join(part for part in [base, category, head_direction, shot_type,
f"{rank:03d}"] if part) + f".{extension}"`. -/
def fullFrameBase (vbn : PyStr) (frame : FrameData) (category : PyStr)
    (rank : Nat) (extension : PyStr) : PyStr :=
  List.intercalate (pstr "_")
    (([vbn, category, getHeadDirection frame, getShotType frame,
       format03 rank]).filter (fun p => !p.isEmpty)) ++ '.' :: extension

/-- The candidate face-crop filename before collision resolution:
`"_".join([base, "face", head_angle, f"{rank:03d}"]) + f".{extension}"`
(no empty-component filtering). -/
def faceCropBase (vbn : PyStr) (headAngle : PyStr) (rank : Nat)
    (extension : PyStr) : PyStr :=
  List.intercalate (pstr "_")
    [vbn, pstr "face", headAngle, format03 rank] ++ '.' :: extension

/-- `NamingConvention._ensure_unique_filename`: return the base name
unchanged if never issued; otherwise take `Path(base_filename).stem` and
`.suffix` — both computed on the final path component, so anything before
a `/` in the candidate is discarded — and search
`f"{stem}_{seq:03d}{ext}"` for `seq = counter[stem]+1, counter[stem]+2, …`
until an unissued name is found, record it and update the stem's counter.
The unbounded `while True` of the source is run here with fuel
`used.length + 1`, which `exists_fresh_candidate` proves sufficient, so the
fuel-out branch of `findFreeSeq` is unreachable. -/
def ensureUniqueFilename (nc : NamingConvention) (base : PyStr) :
    PyStr × NamingConvention :=
  if base ∈ nc.usedFilenames then
    let stem := (pathStemSuffix base).1
    let sfx := (pathStemSuffix base).2
    let start := nc.seqCounters stem + 1
    let seq := findFreeSeq nc.usedFilenames stem sfx start
      (nc.usedFilenames.length + 1)
    let newName := candName stem sfx seq
    (newName,
      { nc with
        usedFilenames := newName :: nc.usedFilenames,
        seqCounters := fun k => if k = stem then seq else nc.seqCounters k })
  else
    (base, { nc with usedFilenames := base :: nc.usedFilenames })

/-- `NamingConvention.get_full_frame_filename`. -/
def getFullFrameFilename (nc : NamingConvention) (frame : FrameData)
    (category : PyStr) (rank : Nat) (extension : PyStr) :
    PyStr × NamingConvention :=
  ensureUniqueFilename nc
    (fullFrameBase nc.videoBaseName frame category rank extension)

/-- `NamingConvention.get_face_crop_filename`. -/
def getFaceCropFilename (nc : NamingConvention) (frame : FrameData)
    (headAngle : PyStr) (rank : Nat) (extension : PyStr) :
    PyStr × NamingConvention :=
  ensureUniqueFilename nc
    (faceCropBase nc.videoBaseName headAngle rank extension)

/-- The fixed set of characters rejected by `validate_filename`. -/
def invalidChars : PyStr := pstr "<>:\"/\\|?*"

/-- `NamingConvention.validate_filename`: a pure predicate on the filename
(the engine state is untouched; only the configured base name is read). -/
def validateFilename (nc : NamingConvention) (filename : PyStr) : Bool :=
  if filename.isEmpty then false
  else if invalidChars.any (fun c => filename.elem c) then false
  else if 255 < filename.length then false
  else if !(List.isPrefixOf nc.videoBaseName filename) then false
  else true

/-! ## Call sequences against one engine instance -/

/-- One filename-issuing call. -/
inductive NamingCall where
  | fullFrame (frame : FrameData) (category : PyStr) (rank : Nat)
      (extension : PyStr)
  | faceCrop (frame : FrameData) (headAngle : PyStr) (rank : Nat)
      (extension : PyStr)

/-- Dispatch one call against the engine. -/
def applyCall (nc : NamingConvention) : NamingCall → PyStr × NamingConvention
  | .fullFrame frame category rank extension =>
      getFullFrameFilename nc frame category rank extension
  | .faceCrop frame headAngle rank extension =>
      getFaceCropFilename nc frame headAngle rank extension

/-- Run a sequence of calls, collecting the returned filenames. -/
def runCalls (nc : NamingConvention) :
    List NamingCall → List PyStr × NamingConvention
  | [] => ([], nc)
  | c :: cs =>
    let r := applyCall nc c
    let rest := runCalls r.2 cs
    (r.1 :: rest.1, rest.2)

end PersonFromVid

namespace PersonFromVid

/-! ## Invariants of one issuing step and of call sequences -/

theorem ensureUniqueFilename_spec (nc : NamingConvention) (base : PyStr) :
    (ensureUniqueFilename nc base).1 ∉ nc.usedFilenames ∧
    (ensureUniqueFilename nc base).2.usedFilenames =
      (ensureUniqueFilename nc base).1 :: nc.usedFilenames ∧
    (∀ k, nc.seqCounters k ≤ (ensureUniqueFilename nc base).2.seqCounters k) ∧
    (ensureUniqueFilename nc base).2.videoBaseName = nc.videoBaseName := by
  by_cases hmem : base ∈ nc.usedFilenames
  · have hex : ∃ n, n < nc.usedFilenames.length + 1 ∧
        candName (pathStemSuffix base).1 (pathStemSuffix base).2
          (nc.seqCounters (pathStemSuffix base).1 + 1 + n) ∉
            nc.usedFilenames := by
      obtain ⟨n, hn, hfree⟩ := exists_fresh_candidate nc.usedFilenames
        (pathStemSuffix base).1 (pathStemSuffix base).2
        (nc.seqCounters (pathStemSuffix base).1 + 1)
      exact ⟨n, by omega, hfree⟩
    have hspec := findFreeSeq_spec nc.usedFilenames (pathStemSuffix base).1
      (pathStemSuffix base).2 (nc.usedFilenames.length + 1)
      (nc.seqCounters (pathStemSuffix base).1 + 1) hex
    unfold ensureUniqueFilename
    rw [if_pos hmem]
    refine ⟨hspec.1, rfl, ?_, rfl⟩
    intro k
    dsimp only
    by_cases hk : k = (pathStemSuffix base).1
    · rw [if_pos hk]
      subst hk
      have := hspec.2
      omega
    · rw [if_neg hk]
  · unfold ensureUniqueFilename
    rw [if_neg hmem]
    exact ⟨hmem, rfl, fun k => Nat.le_refl _, rfl⟩

theorem applyCall_spec (nc : NamingConvention) (c : NamingCall) :
    (applyCall nc c).1 ∉ nc.usedFilenames ∧
    (applyCall nc c).2.usedFilenames =
      (applyCall nc c).1 :: nc.usedFilenames ∧
    (∀ k, nc.seqCounters k ≤ (applyCall nc c).2.seqCounters k) ∧
    (applyCall nc c).2.videoBaseName = nc.videoBaseName := by
  cases c with
  | fullFrame frame category rank extension =>
    exact ensureUniqueFilename_spec nc _
  | faceCrop frame headAngle rank extension =>
    exact ensureUniqueFilename_spec nc _

end PersonFromVid

namespace PersonFromVid

theorem runCalls_spec (calls : List NamingCall) :
    ∀ nc : NamingConvention,
      (runCalls nc calls).1.Nodup ∧
      (∀ f ∈ (runCalls nc calls).1, f ∉ nc.usedFilenames) ∧
      (∀ f ∈ nc.usedFilenames, f ∈ (runCalls nc calls).2.usedFilenames) ∧
      (∀ k, nc.seqCounters k ≤ (runCalls nc calls).2.seqCounters k) := by
  induction calls with
  | nil =>
    intro nc
    exact ⟨List.nodup_nil, by simp [runCalls], fun f hf => hf,
      fun k => Nat.le_refl _⟩
  | cons c cs ih =>
    intro nc
    obtain ⟨hfresh, hused, hmono, -⟩ := applyCall_spec nc c
    obtain ⟨ihnodup, ihfresh, ihgrow, ihmono⟩ := ih (applyCall nc c).2
    have houts : (runCalls nc (c :: cs)).1 =
        (applyCall nc c).1 :: (runCalls (applyCall nc c).2 cs).1 := rfl
    have hfin : (runCalls nc (c :: cs)).2 =
        (runCalls (applyCall nc c).2 cs).2 := rfl
    refine ⟨?_, ?_, ?_, ?_⟩
    · rw [houts]
      refine List.nodup_cons.2 ⟨?_, ihnodup⟩
      intro hin
      have h1 := ihfresh _ hin
      rw [hused] at h1
      exact h1 (List.mem_cons_self _ _)
    · rw [houts]
      intro f hf
      rcases List.mem_cons.1 hf with rfl | hf'
      · exact hfresh
      · intro hcon
        exact ihfresh f hf' (by rw [hused]; exact List.mem_cons_of_mem _ hcon)
    · intro f hf
      rw [hfin]
      exact ihgrow f (by rw [hused]; exact List.mem_cons_of_mem _ hf)
    · intro k
      rw [hfin]
      exact Nat.le_trans (hmono k) (ihmono k)

/-- A frame whose best head pose has direction `"front"` and which carries
no closeup detections (so the shot-type component is empty). -/
def exampleFrame : FrameData :=
  { headPoses := [{ direction := pstr "front", confidence := 1 }],
    closeupDetections := [] }

end PersonFromVid

namespace PersonFromVid

/-! ## Base-name prefix preservation (claim C10 machinery) -/

/-- The first component of an intercalation is a prefix of it. -/
theorem head_isPre_intercalate (sep a : PyStr) (t : List PyStr) :
    a <+: List.intercalate sep (a :: t) := by
  cases t with
  | nil => simp [List.intercalate]
  | cons b t' =>
    show a <+: (List.intersperse sep (a :: b :: t')).flatten
    rw [List.intersperse_cons₂, List.flatten_cons]
    exact List.prefix_append a _

/-- If a name of the shape `j ++ '.' :: e` is split at its last dot, the
stem retains `j` as a prefix (the dot at position `j.length` guarantees
the last dot is no earlier). -/
theorem stem_keeps_head {stem after j e : PyStr}
    (h : stem ++ '.' :: after = j ++ '.' :: e)
    (hnot : ('.' : Char) ∉ after) : j <+: stem := by
  rcases List.append_eq_append_iff.1 h with ⟨m, hm1, hm2⟩ | ⟨m, hm1, _⟩
  · cases m with
    | nil =>
      rw [List.append_nil] at hm1
      rw [hm1]
    | cons x m' =>
      exfalso
      rw [List.cons_append] at hm2
      have hx : ('.' : Char) = x ∧ after = m' ++ '.' :: e := by
        constructor
        · exact (List.cons.injEq _ _ _ _ ▸ hm2).1
        · exact (List.cons.injEq _ _ _ _ ▸ hm2).2
      apply hnot
      rw [hx.2]
      exact List.mem_append.2 (Or.inr (List.mem_cons_self _ _))
  · exact ⟨m, hm1.symm⟩

/-- Splitting `j ++ '.' :: e` at the last dot leaves `j` as a prefix of
the stem. -/
theorem stem_of_append (j e : PyStr) :
    j <+: (pySplitExt (j ++ '.' :: e)).1 := by
  rcases pySplitExt_cases (j ++ '.' :: e) with h | ⟨after, heq, -, hnot⟩
  · rw [h]
    exact List.prefix_append j _
  · exact stem_keeps_head heq.symm hnot

/-- The full-frame candidate filename starts with the video base name
(when that base name is non-empty it survives the empty-component
filter as the first joined component). -/
theorem fullFrameBase_startsWith (vbn : PyStr) (frame : FrameData)
    (category : PyStr) (rank : Nat) (extension : PyStr)
    (hvbn : vbn ≠ []) :
    vbn <+: fullFrameBase vbn frame category rank extension := by
  unfold fullFrameBase
  rw [List.filter_cons_of_pos (by simpa using hvbn)]
  exact (head_isPre_intercalate _ _ _).trans (List.prefix_append _ _)

/-- The face-crop candidate filename starts with the video base name. -/
theorem faceCropBase_startsWith (vbn headAngle : PyStr) (rank : Nat)
    (extension : PyStr) :
    vbn <+: faceCropBase vbn headAngle rank extension := by
  unfold faceCropBase
  exact (head_isPre_intercalate _ _ _).trans (List.prefix_append _ _)

theorem breakAtFirst_eq_none {c : Char} :
    ∀ {l : PyStr}, c ∉ l → breakAtFirst c l = none := by
  intro l
  induction l with
  | nil => intro _; rfl
  | cons x xs ih =>
    intro h
    simp only [List.mem_cons, not_or] at h
    unfold breakAtFirst
    rw [if_neg (fun hx => h.1 hx.symm), ih h.2]
    rfl

/-- A path without separators is its own final component. -/
theorem lastComponent_of_no_slash {p : PyStr} (h : ('/' : Char) ∉ p) :
    lastComponent p = p := by
  unfold lastComponent
  rw [breakAtFirst_eq_none (by simpa using h)]

/-- Collision resolution keeps any prefix of the candidate that is also a
prefix of the candidate's stem component, provided the candidate contains
no path separator (so `Path(...).stem` sees the whole name): if the base
filename has the separator-free shape `j ++ '.' :: e`, both branches of
`_ensure_unique_filename` return a name starting with `j`. -/
theorem ensureUniqueFilename_keeps_head (nc : NamingConvention)
    (j e : PyStr) (hs : ('/' : Char) ∉ j ++ '.' :: e) :
    j <+: (ensureUniqueFilename nc (j ++ '.' :: e)).1 := by
  have hname : pathStemSuffix (j ++ '.' :: e) = pySplitExt (j ++ '.' :: e)
      := by
    unfold pathStemSuffix
    rw [lastComponent_of_no_slash hs]
  unfold ensureUniqueFilename
  by_cases hmem : (j ++ '.' :: e) ∈ nc.usedFilenames
  · rw [if_pos hmem]
    dsimp only
    unfold candName
    rw [hname]
    exact (stem_of_append j e).trans (List.prefix_append _ _)
  · rw [if_neg hmem]
    exact List.prefix_append j _

end PersonFromVid

namespace PersonFromVid

/-! ## Claims about the naming engine -/

/-- Claim C1: for every sequence of calls to `get_full_frame_filename` and
`get_face_crop_filename` on one `NamingConvention` instance (no intervening
`reset_counters`), every returned filename is distinct from every previously
returned one, and per-stem sequence counters never decrease; in particular
three identical calls that first produce `"clip01_standing_front_001.jpg"`
return the `_001`/`_002`-suffixed names afterwards. -/
theorem issuedFilenames_unique_counters_monotone :
    (∀ (nc : NamingConvention) (calls : List NamingCall),
      (runCalls nc calls).1.Nodup ∧
      (∀ k, nc.seqCounters k ≤ (runCalls nc calls).2.seqCounters k)) ∧
    (runCalls (initNC (pstr "clip01"))
      [.fullFrame exampleFrame (pstr "standing") 1 (pstr "jpg"),
       .fullFrame exampleFrame (pstr "standing") 1 (pstr "jpg"),
       .fullFrame exampleFrame (pstr "standing") 1 (pstr "jpg")]).1 =
    [pstr "clip01_standing_front_001.jpg",
     pstr "clip01_standing_front_001_001.jpg",
     pstr "clip01_standing_front_001_002.jpg"] := by
  constructor
  · intro nc calls
    obtain ⟨h1, -, -, h4⟩ := runCalls_spec calls nc
    exact ⟨h1, h4⟩
  · decide

/-- Claim C9: every filename-issuing call terminates with a fresh name and
never raises: the collision-resolution loop always finds an unused name
within `used.length + 1` sequence numbers, for every finite set of
previously issued filenames. -/
theorem filename_generation_terminates (nc : NamingConvention)
    (call : NamingCall) :
    (applyCall nc call).1 ∉ nc.usedFilenames ∧
    (∀ stem sfx : PyStr, ∀ start : Nat,
      ∃ n, n ≤ nc.usedFilenames.length ∧
        candName stem sfx (start + n) ∉ nc.usedFilenames) :=
  ⟨(applyCall_spec nc call).1,
   fun stem sfx start => exists_fresh_candidate nc.usedFilenames stem sfx start⟩

/-- Claim C4: on first issuance, the full-frame filename is the fixed-order
underscore-join of the non-empty components — base name, category, head
direction (best head pose's direction, space→hyphen then lower-cased),
shot type (first closeup detection with a non-empty shot type), rank
zero-padded to 3 digits — followed by a dot and the extension. -/
theorem getFullFrameFilename_first_issuance_format (nc : NamingConvention)
    (frame : FrameData) (category : PyStr) (rank : Nat) (extension : PyStr)
    (h : fullFrameBase nc.videoBaseName frame category rank extension ∉
      nc.usedFilenames) :
    (getFullFrameFilename nc frame category rank extension).1 =
      List.intercalate (pstr "_")
        (([nc.videoBaseName, category, getHeadDirection frame,
           getShotType frame, format03 rank]).filter (fun p => !p.isEmpty))
      ++ '.' :: extension := by
  unfold getFullFrameFilename ensureUniqueFilename
  rw [if_neg h]
  rfl

/-- Witness for C4: on a fresh engine with base `"clip01"` and a frame whose
best head pose points `"front"`, the call with category `"standing"`,
rank 1 and extension `"jpg"` returns `"clip01_standing_front_001.jpg"`. -/
theorem getFullFrameFilename_first_issuance_format_witness :
    fullFrameBase (pstr "clip01") exampleFrame (pstr "standing") 1
      (pstr "jpg") ∉ (initNC (pstr "clip01")).usedFilenames ∧
    (getFullFrameFilename (initNC (pstr "clip01")) exampleFrame
      (pstr "standing") 1 (pstr "jpg")).1 =
      pstr "clip01_standing_front_001.jpg" := by
  refine ⟨List.not_mem_nil _, ?_⟩
  rw [getFullFrameFilename_first_issuance_format (initNC (pstr "clip01"))
    exampleFrame (pstr "standing") 1 (pstr "jpg") (List.not_mem_nil _)]
  decide

/-- Claim C8: on first issuance, the face-crop filename joins — with no
empty-component filtering — the base name, the literal `"face"`, the head
angle and the 3-digit-padded rank, then appends the extension. -/
theorem getFaceCropFilename_first_issuance_format (nc : NamingConvention)
    (frame : FrameData) (headAngle : PyStr) (rank : Nat) (extension : PyStr)
    (h : faceCropBase nc.videoBaseName headAngle rank extension ∉
      nc.usedFilenames) :
    (getFaceCropFilename nc frame headAngle rank extension).1 =
      List.intercalate (pstr "_")
        [nc.videoBaseName, pstr "face", headAngle, format03 rank]
      ++ '.' :: extension := by
  unfold getFaceCropFilename ensureUniqueFilename
  rw [if_neg h]
  rfl

/-- Witness for C8: on a fresh engine with base `"clip01"`, head angle
`"profile-left"`, rank 2 and extension `"png"` produce
`"clip01_face_profile-left_002.png"`. -/
theorem getFaceCropFilename_first_issuance_format_witness :
    faceCropBase (pstr "clip01") (pstr "profile-left") 2 (pstr "png") ∉
      (initNC (pstr "clip01")).usedFilenames ∧
    (getFaceCropFilename (initNC (pstr "clip01")) exampleFrame
      (pstr "profile-left") 2 (pstr "png")).1 =
      pstr "clip01_face_profile-left_002.png" := by
  refine ⟨List.not_mem_nil _, ?_⟩
  rw [getFaceCropFilename_first_issuance_format (initNC (pstr "clip01"))
    exampleFrame (pstr "profile-left") 2 (pstr "png") (List.not_mem_nil _)]
  decide

end PersonFromVid

namespace PersonFromVid

/-- Claim C7: `validate_filename` is a pure predicate — in this embedding a
function of the engine's configured base name and the filename only — and
returns `false` exactly when the filename is empty, contains one of
`< > : " / \ | ? *`, is longer than 255 characters, or does not start with
the video base name; in particular `"../etc/passwd"` is rejected and
`"clip01_standing_front_001.jpg"` is accepted for base `"clip01"`. -/
theorem validateFilename_spec :
    (∀ (nc : NamingConvention) (f : PyStr),
      validateFilename nc f = false ↔
        f = [] ∨ (∃ c ∈ invalidChars, c ∈ f) ∨ 255 < f.length ∨
          ¬ nc.videoBaseName <+: f) ∧
    validateFilename (initNC (pstr "clip01")) (pstr "../etc/passwd") = false ∧
    validateFilename (initNC (pstr "clip01"))
      (pstr "clip01_standing_front_001.jpg") = true := by
  refine ⟨?_, by decide, by decide⟩
  intro nc f
  unfold validateFilename
  split_ifs with h1 h2 h3 h4
  · simp only [List.isEmpty_iff] at h1
    simp [h1]
  · simp only [List.any_eq_true, List.elem_iff] at h2
    simp [h2]
  · simp [h3]
  · simp only [Bool.not_eq_eq_eq_not, Bool.not_true,
      ← Bool.not_eq_true, List.isPrefixOf_iff_prefix] at h4
    simp [h4]
  · simp only [List.isEmpty_iff] at h1
    simp only [List.any_eq_true, List.elem_iff] at h2
    simp only [Bool.not_eq_eq_eq_not, Bool.not_true, ← Bool.not_eq_true,
      List.isPrefixOf_iff_prefix, not_not] at h4
    simp [h1, h2, h3, h4]

end PersonFromVid

namespace PersonFromVid

/-- Full-frame filenames start with the base name — collision suffixes
included — provided the candidate contains no path separator. -/
theorem getFullFrameFilename_startsWith (nc : NamingConvention)
    (frame : FrameData) (category : PyStr) (rank : Nat) (extension : PyStr)
    (h : nc.videoBaseName ≠ [])
    (hs : ('/' : Char) ∉
      fullFrameBase nc.videoBaseName frame category rank extension) :
    nc.videoBaseName <+: (getFullFrameFilename nc frame category rank
      extension).1 := by
  unfold fullFrameBase at hs
  rw [List.filter_cons_of_pos (by simpa using h)] at hs
  unfold getFullFrameFilename fullFrameBase
  rw [List.filter_cons_of_pos (by simpa using h)]
  exact (head_isPre_intercalate _ _ _).trans
    (ensureUniqueFilename_keeps_head nc _ extension hs)

/-- Face-crop filenames start with the base name — collision suffixes
included — provided the candidate contains no path separator. -/
theorem getFaceCropFilename_startsWith (nc : NamingConvention)
    (frame : FrameData) (headAngle : PyStr) (rank : Nat) (extension : PyStr)
    (hs : ('/' : Char) ∉
      faceCropBase nc.videoBaseName headAngle rank extension) :
    nc.videoBaseName <+: (getFaceCropFilename nc frame headAngle rank
      extension).1 := by
  unfold faceCropBase at hs
  unfold getFaceCropFilename faceCropBase
  exact (head_isPre_intercalate _ _ _).trans
    (ensureUniqueFilename_keeps_head nc _ extension hs)

/-- The candidate filename a call submits to collision resolution. -/
def callBase (nc : NamingConvention) : NamingCall → PyStr
  | .fullFrame frame category rank extension =>
    fullFrameBase nc.videoBaseName frame category rank extension
  | .faceCrop _ headAngle rank extension =>
    faceCropBase nc.videoBaseName headAngle rank extension

/-- Claim C10 (counterexample): the base-name-prefix guarantee fails once
a component contains a path separator.  With base name `"v"` and category
`"a/b"`, the first call returns `"v_a/b_front_001.jpg"`; the second,
identical call collides, and `Path("v_a/b_front_001.jpg").stem` is
computed on the final path component only, so it returns
`"b_front_001_001.jpg"` — which does not start with `"v"` and fails the
`validate_filename` base-name-prefix check. -/
theorem issued_names_slash_cex :
    (runCalls (initNC (pstr "v"))
      [.fullFrame exampleFrame (pstr "a/b") 1 (pstr "jpg"),
       .fullFrame exampleFrame (pstr "a/b") 1 (pstr "jpg")]).1 =
      [pstr "v_a/b_front_001.jpg", pstr "b_front_001_001.jpg"] ∧
    ¬ (pstr "v") <+: (pstr "b_front_001_001.jpg") := by
  exact ⟨by decide, by decide⟩

/-- Claim C10 (amended): for every engine with a non-empty base name,
every filename returned by `get_full_frame_filename` or
`get_face_crop_filename` — collision-suffixed names included — starts
with the base name *provided the call's candidate filename contains no
path separator* (in particular whenever the base name and all
metadata-derived components are `/`-free); the returned name then passes
the base-name-prefix check used by `validate_filename`.  A candidate
containing `/` can lose the prefix on collision, because
`Path(...).stem` keeps only the final path component. -/
theorem issued_names_start_with_base_of_no_slash (nc : NamingConvention)
    (call : NamingCall) (h : nc.videoBaseName ≠ [])
    (hs : ('/' : Char) ∉ callBase nc call) :
    nc.videoBaseName <+: (applyCall nc call).1 ∧
    List.isPrefixOf nc.videoBaseName (applyCall nc call).1 = true := by
  have hp : nc.videoBaseName <+: (applyCall nc call).1 := by
    cases call with
    | fullFrame frame category rank extension =>
      exact getFullFrameFilename_startsWith nc frame category rank extension
        h hs
    | faceCrop frame headAngle rank extension =>
      exact getFaceCropFilename_startsWith nc frame headAngle rank extension
        hs
  exact ⟨hp, List.isPrefixOf_iff_prefix.2 hp⟩

/-- Witness for the amended C10: the slash-free `"clip01"` example call
satisfies the hypotheses and its issued name starts with `"clip01"`. -/
theorem issued_names_start_with_base_of_no_slash_witness :
    (initNC (pstr "clip01")).videoBaseName ≠ [] ∧
    ('/' : Char) ∉ callBase (initNC (pstr "clip01"))
      (.fullFrame exampleFrame (pstr "standing") 1 (pstr "jpg")) ∧
    (pstr "clip01") <+:
      (applyCall (initNC (pstr "clip01"))
        (.fullFrame exampleFrame (pstr "standing") 1 (pstr "jpg"))).1 := by
  refine ⟨by decide, by decide, ?_⟩
  exact (issued_names_start_with_base_of_no_slash (initNC (pstr "clip01"))
    (.fullFrame exampleFrame (pstr "standing") 1 (pstr "jpg"))
    (by decide) (by decide)).1

end PersonFromVid

namespace PersonFromVid

/-! ## Configuration data model (`personfromvid/data/config.py`)

Enum-valued fields become inductive types, floats become `ℚ`, ints `ℤ`,
`pathlib.Path` values plain strings. -/

/-- `DeviceType(str, Enum)`: supported computation devices. -/
inductive DeviceType where
  | cpu
  | gpu
  | auto
deriving DecidableEq

/-- Serialization of `DeviceType` used by `ModelConfig.serialize_device`. -/
def deviceStr : DeviceType → String
  | .cpu => "cpu"
  | .gpu => "gpu"
  | .auto => "auto"

/-- `LogLevel(str, Enum)`: logging levels. -/
inductive LogLevel where
  | debug
  | info
  | warning
  | error
  | critical
deriving DecidableEq

/-- Serialization of `LogLevel` used by `LoggingConfig.serialize_level`. -/
def levelStr : LogLevel → String
  | .debug => "DEBUG"
  | .info => "INFO"
  | .warning => "WARNING"
  | .error => "ERROR"
  | .critical => "CRITICAL"

/-- `ModelConfig`. -/
structure ModelConfig where
  face_detection_model : String
  pose_estimation_model : String
  head_pose_model : String
  device : DeviceType
  batch_size : ℤ
  confidence_threshold : ℚ
deriving DecidableEq

/-- `FrameExtractionConfig`. -/
structure FrameExtractionConfig where
  temporal_sampling_interval : ℚ
  enable_keyframe_detection : Bool
  enable_temporal_sampling : Bool
  max_frames_per_video : Option ℤ
  deduplication_enabled : Bool
deriving DecidableEq

/-- `QualityConfig`. -/
structure QualityConfig where
  blur_threshold : ℚ
  brightness_min : ℚ
  brightness_max : ℚ
  contrast_min : ℚ
  enable_multiple_metrics : Bool
deriving DecidableEq

/-- `PoseClassificationConfig`. -/
structure PoseClassificationConfig where
  standing_hip_knee_angle_min : ℚ
  sitting_hip_knee_angle_min : ℚ
  sitting_hip_knee_angle_max : ℚ
  squatting_hip_knee_angle_max : ℚ
  closeup_face_area_threshold : ℚ
deriving DecidableEq

/-- `HeadAngleConfig`. -/
structure HeadAngleConfig where
  yaw_threshold_degrees : ℚ
  pitch_threshold_degrees : ℚ
  max_roll_degrees : ℚ
  profile_yaw_threshold : ℚ
deriving DecidableEq

/-- `CloseupDetectionConfig`. -/
structure CloseupDetectionConfig where
  extreme_closeup_threshold : ℚ
  closeup_threshold : ℚ
  medium_closeup_threshold : ℚ
  medium_shot_threshold : ℚ
  shoulder_width_threshold : ℚ
  enable_composition_analysis : Bool
  enable_distance_estimation : Bool
deriving DecidableEq

/-- `FrameSelectionConfig`. -/
structure FrameSelectionConfig where
  min_quality_threshold : ℚ
  face_size_weight : ℚ
  quality_weight : ℚ
  diversity_threshold : ℚ
deriving DecidableEq

/-- `PngConfig`. -/
structure PngConfig where
  optimize : Bool
deriving DecidableEq

/-- `JpegConfig`. -/
structure JpegConfig where
  quality : ℤ
deriving DecidableEq

/-- `OutputImageConfig`. -/
structure OutputImageConfig where
  format : String
  face_crop_enabled : Bool
  full_frame_enabled : Bool
  face_crop_padding : ℚ
  resize : Option ℤ
  png : PngConfig
  jpeg : JpegConfig
deriving DecidableEq

/-- `OutputConfig`. -/
structure OutputConfig where
  min_frames_per_category : ℤ
  preserve_metadata : Bool
  image : OutputImageConfig
deriving DecidableEq

/-- `StorageConfig` (paths modelled as strings; string inputs and `Path`
inputs are identified, matching the `convert_path` validator). -/
structure StorageConfig where
  cache_directory : String
  temp_directory : Option String
  cleanup_temp_on_success : Bool
  cleanup_temp_on_failure : Bool
  keep_temp : Bool
  force_temp_cleanup : Bool
  max_cache_size_gb : ℚ
deriving DecidableEq

/-- `ProcessingConfig`. -/
structure ProcessingConfig where
  enable_resume : Bool
  save_intermediate_results : Bool
  max_processing_time_minutes : Option ℤ
  parallel_workers : ℤ
deriving DecidableEq

/-- `LoggingConfig`. -/
structure LoggingConfig where
  level : LogLevel
  enable_file_logging : Bool
  log_file : Option String
  enable_rich_console : Bool
  enable_structured_output : Bool
  verbose : Bool
deriving DecidableEq

/-- `Config`: the root aggregate. -/
structure Config where
  models : ModelConfig
  frame_extraction : FrameExtractionConfig
  quality : QualityConfig
  pose_classification : PoseClassificationConfig
  head_angle : HeadAngleConfig
  closeup_detection : CloseupDetectionConfig
  frame_selection : FrameSelectionConfig
  output : OutputConfig
  storage : StorageConfig
  processing : ProcessingConfig
  logging : LoggingConfig
deriving DecidableEq

end PersonFromVid

namespace PersonFromVid

/-! ## Schema defaults -/

/-- Modelled from the spec: the default cache directory is the
platform-dependent user cache directory returned by
`platformdirs.user_cache_dir("personfromvid", "codeprimate")`; no claim
depends on its concrete value, so it is modelled as a fixed placeholder
path string. -/
def defaultCacheDir : String := "user_cache_dir/personfromvid"

def defaultModelConfig : ModelConfig :=
  { face_detection_model := "yolov8s-face"
    pose_estimation_model := "yolov8s-pose"
    head_pose_model := "sixdrepnet"
    device := .auto
    batch_size := 1
    confidence_threshold := 3/10 }

def defaultFrameExtractionConfig : FrameExtractionConfig :=
  { temporal_sampling_interval := 1/4
    enable_keyframe_detection := true
    enable_temporal_sampling := true
    max_frames_per_video := none
    deduplication_enabled := true }

def defaultQualityConfig : QualityConfig :=
  { blur_threshold := 100
    brightness_min := 30
    brightness_max := 225
    contrast_min := 20
    enable_multiple_metrics := true }

def defaultPoseClassificationConfig : PoseClassificationConfig :=
  { standing_hip_knee_angle_min := 160
    sitting_hip_knee_angle_min := 80
    sitting_hip_knee_angle_max := 120
    squatting_hip_knee_angle_max := 90
    closeup_face_area_threshold := 15/100 }

def defaultHeadAngleConfig : HeadAngleConfig :=
  { yaw_threshold_degrees := 45/2
    pitch_threshold_degrees := 45/2
    max_roll_degrees := 30
    profile_yaw_threshold := 135/2 }

def defaultCloseupDetectionConfig : CloseupDetectionConfig :=
  { extreme_closeup_threshold := 1/4
    closeup_threshold := 15/100
    medium_closeup_threshold := 8/100
    medium_shot_threshold := 3/100
    shoulder_width_threshold := 35/100
    enable_composition_analysis := true
    enable_distance_estimation := true }

def defaultFrameSelectionConfig : FrameSelectionConfig :=
  { min_quality_threshold := 2/10
    face_size_weight := 3/10
    quality_weight := 7/10
    diversity_threshold := 8/10 }

def defaultPngConfig : PngConfig := { optimize := true }

def defaultJpegConfig : JpegConfig := { quality := 95 }

def defaultOutputImageConfig : OutputImageConfig :=
  { format := "jpeg"
    face_crop_enabled := true
    full_frame_enabled := true
    face_crop_padding := 2/10
    resize := none
    png := defaultPngConfig
    jpeg := defaultJpegConfig }

def defaultOutputConfig : OutputConfig :=
  { min_frames_per_category := 3
    preserve_metadata := true
    image := defaultOutputImageConfig }

def defaultStorageConfig : StorageConfig :=
  { cache_directory := defaultCacheDir
    temp_directory := none
    cleanup_temp_on_success := true
    cleanup_temp_on_failure := false
    keep_temp := false
    force_temp_cleanup := false
    max_cache_size_gb := 5 }

def defaultProcessingConfig : ProcessingConfig :=
  { enable_resume := true
    save_intermediate_results := true
    max_processing_time_minutes := none
    parallel_workers := 1 }

def defaultLoggingConfig : LoggingConfig :=
  { level := .info
    enable_file_logging := false
    log_file := none
    enable_rich_console := true
    enable_structured_output := true
    verbose := false }

/-- `Config()`: every group at its schema default. -/
def defaultConfig : Config :=
  { models := defaultModelConfig
    frame_extraction := defaultFrameExtractionConfig
    quality := defaultQualityConfig
    pose_classification := defaultPoseClassificationConfig
    head_angle := defaultHeadAngleConfig
    closeup_detection := defaultCloseupDetectionConfig
    frame_selection := defaultFrameSelectionConfig
    output := defaultOutputConfig
    storage := defaultStorageConfig
    processing := defaultProcessingConfig
    logging := defaultLoggingConfig }

end PersonFromVid

namespace PersonFromVid

/-! ## Parsed configuration values and pydantic-style validation

A YAML/JSON file parses to a scalar tree (`JValue`).  Validation mirrors
pydantic v2 construction of the schema: provided values are type-checked
and bound-checked field by field in declaration order; omitted fields take
their declared default without validation (`validate_default` is off);
custom `field_validator`s run after the field's own checks.  Errors carry
the offending field's location path. -/

/-- A parsed YAML/JSON scalar tree (the configuration schema uses no
arrays). -/
inductive JValue where
  | null
  | bool (b : Bool)
  | num (q : ℚ)
  | str (s : String)
  | obj (fields : List (String × JValue))

/-- Key lookup in a parsed object. -/
def jGet (kvs : List (String × JValue)) (k : String) : Option JValue :=
  (kvs.find? (fun p => p.1 == k)).map (fun p => p.2)

/-- Errors surfaced by the configuration component. -/
inductive ConfigError where
  | notFound (path : String)
  | unsupportedFormat (ext : String)
  | validationError (fieldPath : List String)
deriving DecidableEq

/-- Bound check for a rational against optional `ge`/`le` bounds. -/
def withinQ (lo hi : Option ℚ) (q : ℚ) : Bool :=
  lo.all (fun l => decide (l ≤ q)) && hi.all (fun h => decide (q ≤ h))

/-- Bound check for an integer against optional `ge`/`le` bounds. -/
def withinZ (lo hi : Option ℤ) (z : ℤ) : Bool :=
  lo.all (fun l => decide (l ≤ z)) && hi.all (fun h => decide (z ≤ h))

/-- A bounded float field: absent → default (not validated); a number in
bounds → accepted; anything else → validation error at `fp`. -/
def checkFloat (fp : List String) (lo hi : Option ℚ) (dflt : ℚ) :
    Option JValue → Except (List String) ℚ
  | none => .ok dflt
  | some (.num q) => if withinQ lo hi q then .ok q else .error fp
  | some _ => .error fp

/-- A bounded int field: accepts integral numbers only (pydantic's lax
mode accepts `1.0` but rejects `1.5`). -/
def checkInt (fp : List String) (lo hi : Option ℤ) (dflt : ℤ) :
    Option JValue → Except (List String) ℤ
  | none => .ok dflt
  | some (.num q) =>
    if q.den = 1 && withinZ lo hi q.num then .ok q.num else .error fp
  | some _ => .error fp

/-- An optional bounded int field (`Optional[int]` with `ge`/`le`). -/
def checkOptInt (fp : List String) (lo hi : Option ℤ) (dflt : Option ℤ) :
    Option JValue → Except (List String) (Option ℤ)
  | none => .ok dflt
  | some .null => .ok none
  | some (.num q) =>
    if q.den = 1 && withinZ lo hi q.num then .ok (some q.num) else .error fp
  | some _ => .error fp

/-- A boolean field. -/
def checkBool (fp : List String) (dflt : Bool) :
    Option JValue → Except (List String) Bool
  | none => .ok dflt
  | some (.bool b) => .ok b
  | some _ => .error fp

/-- A plain string field. -/
def checkStr (fp : List String) (dflt : String) :
    Option JValue → Except (List String) String
  | none => .ok dflt
  | some (.str s) => .ok s
  | some _ => .error fp

/-- A path field (strings are normalized to paths by `convert_path`;
modelled as the identity on strings). -/
def checkPath (fp : List String) (dflt : String) :
    Option JValue → Except (List String) String
  | none => .ok dflt
  | some (.str s) => .ok s
  | some _ => .error fp

/-- An optional path field (`Optional[Path]`). -/
def checkOptPath (fp : List String) (dflt : Option String) :
    Option JValue → Except (List String) (Option String)
  | none => .ok dflt
  | some .null => .ok none
  | some (.str s) => .ok (some s)
  | some _ => .error fp

/-- The `DeviceType` enum field, validated by value. -/
def checkDevice (fp : List String) (dflt : DeviceType) :
    Option JValue → Except (List String) DeviceType
  | none => .ok dflt
  | some (.str s) =>
    if s = "cpu" then .ok .cpu
    else if s = "gpu" then .ok .gpu
    else if s = "auto" then .ok .auto
    else .error fp
  | some _ => .error fp

/-- The `LogLevel` enum field, validated by value. -/
def checkLevel (fp : List String) (dflt : LogLevel) :
    Option JValue → Except (List String) LogLevel
  | none => .ok dflt
  | some (.str s) =>
    if s = "DEBUG" then .ok .debug
    else if s = "INFO" then .ok .info
    else if s = "WARNING" then .ok .warning
    else if s = "ERROR" then .ok .error
    else if s = "CRITICAL" then .ok .critical
    else .error fp
  | some _ => .error fp

end PersonFromVid

namespace PersonFromVid

/-! ## Group validation (constructor semantics of each pydantic model) -/

def modelConfigOfData (fp : List String) (v : JValue) :
    Except (List String) ModelConfig :=
  match v with
  | .obj kvs => do
    let fdm ← checkStr (fp ++ ["face_detection_model"]) "yolov8s-face"
      (jGet kvs "face_detection_model")
    let pem ← checkStr (fp ++ ["pose_estimation_model"]) "yolov8s-pose"
      (jGet kvs "pose_estimation_model")
    let hpm ← checkStr (fp ++ ["head_pose_model"]) "sixdrepnet"
      (jGet kvs "head_pose_model")
    let dev ← checkDevice (fp ++ ["device"]) .auto (jGet kvs "device")
    let bs ← checkInt (fp ++ ["batch_size"]) (some 1) (some 64) 1
      (jGet kvs "batch_size")
    let ct ← checkFloat (fp ++ ["confidence_threshold"]) (some 0) (some 1)
      (3/10) (jGet kvs "confidence_threshold")
    .ok ⟨fdm, pem, hpm, dev, bs, ct⟩
  | _ => .error fp

def frameExtractionConfigOfData (fp : List String) (v : JValue) :
    Except (List String) FrameExtractionConfig :=
  match v with
  | .obj kvs => do
    let tsi ← checkFloat (fp ++ ["temporal_sampling_interval"]) (some (1/10))
      (some 2) (1/4) (jGet kvs "temporal_sampling_interval")
    let ekd ← checkBool (fp ++ ["enable_keyframe_detection"]) true
      (jGet kvs "enable_keyframe_detection")
    let ets ← checkBool (fp ++ ["enable_temporal_sampling"]) true
      (jGet kvs "enable_temporal_sampling")
    let mfv ← checkOptInt (fp ++ ["max_frames_per_video"]) (some 10) none
      none (jGet kvs "max_frames_per_video")
    let de ← checkBool (fp ++ ["deduplication_enabled"]) true
      (jGet kvs "deduplication_enabled")
    .ok ⟨tsi, ekd, ets, mfv, de⟩
  | _ => .error fp

def qualityConfigOfData (fp : List String) (v : JValue) :
    Except (List String) QualityConfig :=
  match v with
  | .obj kvs => do
    let bt ← checkFloat (fp ++ ["blur_threshold"]) (some 10) none 100
      (jGet kvs "blur_threshold")
    let bmin ← checkFloat (fp ++ ["brightness_min"]) (some 0) (some 255) 30
      (jGet kvs "brightness_min")
    let bmax ← checkFloat (fp ++ ["brightness_max"]) (some 0) (some 255) 225
      (jGet kvs "brightness_max")
    let cmin ← checkFloat (fp ++ ["contrast_min"]) (some 0) none 20
      (jGet kvs "contrast_min")
    let emm ← checkBool (fp ++ ["enable_multiple_metrics"]) true
      (jGet kvs "enable_multiple_metrics")
    .ok ⟨bt, bmin, bmax, cmin, emm⟩
  | _ => .error fp

def poseClassificationConfigOfData (fp : List String) (v : JValue) :
    Except (List String) PoseClassificationConfig :=
  match v with
  | .obj kvs => do
    let a ← checkFloat (fp ++ ["standing_hip_knee_angle_min"]) (some 120)
      (some 180) 160 (jGet kvs "standing_hip_knee_angle_min")
    let b ← checkFloat (fp ++ ["sitting_hip_knee_angle_min"]) (some 45)
      (some 120) 80 (jGet kvs "sitting_hip_knee_angle_min")
    let c ← checkFloat (fp ++ ["sitting_hip_knee_angle_max"]) (some 80)
      (some 160) 120 (jGet kvs "sitting_hip_knee_angle_max")
    let d ← checkFloat (fp ++ ["squatting_hip_knee_angle_max"]) (some 45)
      (some 120) 90 (jGet kvs "squatting_hip_knee_angle_max")
    let e ← checkFloat (fp ++ ["closeup_face_area_threshold"]) (some (5/100))
      (some (1/2)) (15/100) (jGet kvs "closeup_face_area_threshold")
    .ok ⟨a, b, c, d, e⟩
  | _ => .error fp

def headAngleConfigOfData (fp : List String) (v : JValue) :
    Except (List String) HeadAngleConfig :=
  match v with
  | .obj kvs => do
    let a ← checkFloat (fp ++ ["yaw_threshold_degrees"]) (some 10) (some 45)
      (45/2) (jGet kvs "yaw_threshold_degrees")
    let b ← checkFloat (fp ++ ["pitch_threshold_degrees"]) (some 10) (some 45)
      (45/2) (jGet kvs "pitch_threshold_degrees")
    let c ← checkFloat (fp ++ ["max_roll_degrees"]) (some 15) (some 60) 30
      (jGet kvs "max_roll_degrees")
    let d ← checkFloat (fp ++ ["profile_yaw_threshold"]) (some 45) (some 90)
      (135/2) (jGet kvs "profile_yaw_threshold")
    .ok ⟨a, b, c, d⟩
  | _ => .error fp

def closeupDetectionConfigOfData (fp : List String) (v : JValue) :
    Except (List String) CloseupDetectionConfig :=
  match v with
  | .obj kvs => do
    let a ← checkFloat (fp ++ ["extreme_closeup_threshold"]) (some (15/100))
      (some (1/2)) (1/4) (jGet kvs "extreme_closeup_threshold")
    let b ← checkFloat (fp ++ ["closeup_threshold"]) (some (8/100))
      (some (3/10)) (15/100) (jGet kvs "closeup_threshold")
    let c ← checkFloat (fp ++ ["medium_closeup_threshold"]) (some (4/100))
      (some (15/100)) (8/100) (jGet kvs "medium_closeup_threshold")
    let d ← checkFloat (fp ++ ["medium_shot_threshold"]) (some (1/100))
      (some (8/100)) (3/100) (jGet kvs "medium_shot_threshold")
    let e ← checkFloat (fp ++ ["shoulder_width_threshold"]) (some (2/10))
      (some (6/10)) (35/100) (jGet kvs "shoulder_width_threshold")
    let f ← checkBool (fp ++ ["enable_composition_analysis"]) true
      (jGet kvs "enable_composition_analysis")
    let g ← checkBool (fp ++ ["enable_distance_estimation"]) true
      (jGet kvs "enable_distance_estimation")
    .ok ⟨a, b, c, d, e, f, g⟩
  | _ => .error fp

/-- `FrameSelectionConfig(**kwargs)`.  The decorated
`validate_weights_sum` is registered for both weight fields but its body
acts only while `quality_weight` itself is being validated
(`info.field_name == "quality_weight"`), i.e. only when an explicit
`quality_weight` value was supplied (defaults are not validated), and it
reads `face_size_weight` from the previously validated data with fallback
`0.3` — which coincides with that field's declared default. -/
def frameSelectionConfigOfData (fp : List String) (v : JValue) :
    Except (List String) FrameSelectionConfig :=
  match v with
  | .obj kvs => do
    let mqt ← checkFloat (fp ++ ["min_quality_threshold"]) (some 0) (some 1)
      (2/10) (jGet kvs "min_quality_threshold")
    let fsw ← checkFloat (fp ++ ["face_size_weight"]) (some 0) (some 1)
      (3/10) (jGet kvs "face_size_weight")
    let qw ← checkFloat (fp ++ ["quality_weight"]) (some 0) (some 1)
      (7/10) (jGet kvs "quality_weight")
    if (jGet kvs "quality_weight").isSome && decide (1 < fsw + qw) then
      .error (fp ++ ["quality_weight"])
    else do
      let dt ← checkFloat (fp ++ ["diversity_threshold"]) (some 0) (some 1)
        (8/10) (jGet kvs "diversity_threshold")
      .ok ⟨mqt, fsw, qw, dt⟩
  | _ => .error fp

def pngConfigOfData (fp : List String) (v : JValue) :
    Except (List String) PngConfig :=
  match v with
  | .obj kvs => do
    let o ← checkBool (fp ++ ["optimize"]) true (jGet kvs "optimize")
    .ok ⟨o⟩
  | _ => .error fp

def jpegConfigOfData (fp : List String) (v : JValue) :
    Except (List String) JpegConfig :=
  match v with
  | .obj kvs => do
    let q ← checkInt (fp ++ ["quality"]) (some 70) (some 100) 95
      (jGet kvs "quality")
    .ok ⟨q⟩
  | _ => .error fp

/-- Parse an optional nested sub-model: absent key → default instance
(`default_factory`, not validated). -/
def subModel {α : Type} (fp : List String) (dflt : α)
    (ofData : List String → JValue → Except (List String) α) :
    Option JValue → Except (List String) α
  | none => .ok dflt
  | some w => ofData fp w

def outputImageConfigOfData (fp : List String) (v : JValue) :
    Except (List String) OutputImageConfig :=
  match v with
  | .obj kvs => do
    let fmt ← checkStr (fp ++ ["format"]) "jpeg" (jGet kvs "format")
    let fce ← checkBool (fp ++ ["face_crop_enabled"]) true
      (jGet kvs "face_crop_enabled")
    let ffe ← checkBool (fp ++ ["full_frame_enabled"]) true
      (jGet kvs "full_frame_enabled")
    let fcp ← checkFloat (fp ++ ["face_crop_padding"]) (some 0) (some 1)
      (2/10) (jGet kvs "face_crop_padding")
    let rsz ← checkOptInt (fp ++ ["resize"]) (some 256) (some 4096) none
      (jGet kvs "resize")
    let png ← subModel (fp ++ ["png"]) defaultPngConfig pngConfigOfData
      (jGet kvs "png")
    let jpeg ← subModel (fp ++ ["jpeg"]) defaultJpegConfig jpegConfigOfData
      (jGet kvs "jpeg")
    .ok ⟨fmt, fce, ffe, fcp, rsz, png, jpeg⟩
  | _ => .error fp

def outputConfigOfData (fp : List String) (v : JValue) :
    Except (List String) OutputConfig :=
  match v with
  | .obj kvs => do
    let mfc ← checkInt (fp ++ ["min_frames_per_category"]) (some 1) (some 10)
      3 (jGet kvs "min_frames_per_category")
    let pm ← checkBool (fp ++ ["preserve_metadata"]) true
      (jGet kvs "preserve_metadata")
    let img ← subModel (fp ++ ["image"]) defaultOutputImageConfig
      outputImageConfigOfData (jGet kvs "image")
    .ok ⟨mfc, pm, img⟩
  | _ => .error fp

def storageConfigOfData (fp : List String) (v : JValue) :
    Except (List String) StorageConfig :=
  match v with
  | .obj kvs => do
    let cd ← checkPath (fp ++ ["cache_directory"]) defaultCacheDir
      (jGet kvs "cache_directory")
    let td ← checkOptPath (fp ++ ["temp_directory"]) none
      (jGet kvs "temp_directory")
    let cts ← checkBool (fp ++ ["cleanup_temp_on_success"]) true
      (jGet kvs "cleanup_temp_on_success")
    let ctf ← checkBool (fp ++ ["cleanup_temp_on_failure"]) false
      (jGet kvs "cleanup_temp_on_failure")
    let kt ← checkBool (fp ++ ["keep_temp"]) false (jGet kvs "keep_temp")
    let ftc ← checkBool (fp ++ ["force_temp_cleanup"]) false
      (jGet kvs "force_temp_cleanup")
    let mcs ← checkFloat (fp ++ ["max_cache_size_gb"]) (some (1/2)) (some 50)
      5 (jGet kvs "max_cache_size_gb")
    .ok ⟨cd, td, cts, ctf, kt, ftc, mcs⟩
  | _ => .error fp

def processingConfigOfData (fp : List String) (v : JValue) :
    Except (List String) ProcessingConfig :=
  match v with
  | .obj kvs => do
    let er ← checkBool (fp ++ ["enable_resume"]) true
      (jGet kvs "enable_resume")
    let sir ← checkBool (fp ++ ["save_intermediate_results"]) true
      (jGet kvs "save_intermediate_results")
    let mpt ← checkOptInt (fp ++ ["max_processing_time_minutes"]) (some 1)
      none none (jGet kvs "max_processing_time_minutes")
    let pw ← checkInt (fp ++ ["parallel_workers"]) (some 1) (some 16) 1
      (jGet kvs "parallel_workers")
    .ok ⟨er, sir, mpt, pw⟩
  | _ => .error fp

def loggingConfigOfData (fp : List String) (v : JValue) :
    Except (List String) LoggingConfig :=
  match v with
  | .obj kvs => do
    let lvl ← checkLevel (fp ++ ["level"]) .info (jGet kvs "level")
    let efl ← checkBool (fp ++ ["enable_file_logging"]) false
      (jGet kvs "enable_file_logging")
    let lf ← checkOptPath (fp ++ ["log_file"]) none (jGet kvs "log_file")
    let erc ← checkBool (fp ++ ["enable_rich_console"]) true
      (jGet kvs "enable_rich_console")
    let eso ← checkBool (fp ++ ["enable_structured_output"]) true
      (jGet kvs "enable_structured_output")
    let vb ← checkBool (fp ++ ["verbose"]) false (jGet kvs "verbose")
    .ok ⟨lvl, efl, lf, erc, eso, vb⟩
  | _ => .error fp

/-- `Config(**data)`: validate each group from the parsed tree; a missing
group key yields that group's default instance. -/
def configValidate (v : JValue) : Except (List String) Config :=
  match v with
  | .obj kvs => do
    let models ← subModel ["models"] defaultModelConfig modelConfigOfData
      (jGet kvs "models")
    let fe ← subModel ["frame_extraction"] defaultFrameExtractionConfig
      frameExtractionConfigOfData (jGet kvs "frame_extraction")
    let q ← subModel ["quality"] defaultQualityConfig qualityConfigOfData
      (jGet kvs "quality")
    let pc ← subModel ["pose_classification"] defaultPoseClassificationConfig
      poseClassificationConfigOfData (jGet kvs "pose_classification")
    let ha ← subModel ["head_angle"] defaultHeadAngleConfig
      headAngleConfigOfData (jGet kvs "head_angle")
    let cd ← subModel ["closeup_detection"] defaultCloseupDetectionConfig
      closeupDetectionConfigOfData (jGet kvs "closeup_detection")
    let fs ← subModel ["frame_selection"] defaultFrameSelectionConfig
      frameSelectionConfigOfData (jGet kvs "frame_selection")
    let op ← subModel ["output"] defaultOutputConfig outputConfigOfData
      (jGet kvs "output")
    let st ← subModel ["storage"] defaultStorageConfig storageConfigOfData
      (jGet kvs "storage")
    let pr ← subModel ["processing"] defaultProcessingConfig
      processingConfigOfData (jGet kvs "processing")
    let lg ← subModel ["logging"] defaultLoggingConfig loggingConfigOfData
      (jGet kvs "logging")
    .ok ⟨models, fe, q, pc, ha, cd, fs, op, st, pr, lg⟩
  | _ => .error []

/-- `Config(**data)` with the error wrapped as a `ValidationError` carrying
the offending field's location. -/
def configFromData (v : JValue) : Except ConfigError Config :=
  match configValidate v with
  | .ok c => .ok c
  | .error p => .error (.validationError p)

end PersonFromVid

namespace PersonFromVid

/-! ## Serialization (`Config.dict()` with the declared field serializers) -/

/-- Serialize an optional int to `null`/number. -/
def optIntData : Option ℤ → JValue
  | none => .null
  | some z => .num (z : ℚ)

/-- Serialize an optional path to `null`/string (the
`serialize_path` field serializers). -/
def optPathData : Option String → JValue
  | none => .null
  | some s => .str s

def modelConfigToData (c : ModelConfig) : JValue :=
  .obj [("face_detection_model", .str c.face_detection_model),
        ("pose_estimation_model", .str c.pose_estimation_model),
        ("head_pose_model", .str c.head_pose_model),
        ("device", .str (deviceStr c.device)),
        ("batch_size", .num (c.batch_size : ℚ)),
        ("confidence_threshold", .num c.confidence_threshold)]

def frameExtractionConfigToData (c : FrameExtractionConfig) : JValue :=
  .obj [("temporal_sampling_interval", .num c.temporal_sampling_interval),
        ("enable_keyframe_detection", .bool c.enable_keyframe_detection),
        ("enable_temporal_sampling", .bool c.enable_temporal_sampling),
        ("max_frames_per_video", optIntData c.max_frames_per_video),
        ("deduplication_enabled", .bool c.deduplication_enabled)]

def qualityConfigToData (c : QualityConfig) : JValue :=
  .obj [("blur_threshold", .num c.blur_threshold),
        ("brightness_min", .num c.brightness_min),
        ("brightness_max", .num c.brightness_max),
        ("contrast_min", .num c.contrast_min),
        ("enable_multiple_metrics", .bool c.enable_multiple_metrics)]

def poseClassificationConfigToData (c : PoseClassificationConfig) : JValue :=
  .obj [("standing_hip_knee_angle_min", .num c.standing_hip_knee_angle_min),
        ("sitting_hip_knee_angle_min", .num c.sitting_hip_knee_angle_min),
        ("sitting_hip_knee_angle_max", .num c.sitting_hip_knee_angle_max),
        ("squatting_hip_knee_angle_max", .num c.squatting_hip_knee_angle_max),
        ("closeup_face_area_threshold", .num c.closeup_face_area_threshold)]

def headAngleConfigToData (c : HeadAngleConfig) : JValue :=
  .obj [("yaw_threshold_degrees", .num c.yaw_threshold_degrees),
        ("pitch_threshold_degrees", .num c.pitch_threshold_degrees),
        ("max_roll_degrees", .num c.max_roll_degrees),
        ("profile_yaw_threshold", .num c.profile_yaw_threshold)]

def closeupDetectionConfigToData (c : CloseupDetectionConfig) : JValue :=
  .obj [("extreme_closeup_threshold", .num c.extreme_closeup_threshold),
        ("closeup_threshold", .num c.closeup_threshold),
        ("medium_closeup_threshold", .num c.medium_closeup_threshold),
        ("medium_shot_threshold", .num c.medium_shot_threshold),
        ("shoulder_width_threshold", .num c.shoulder_width_threshold),
        ("enable_composition_analysis", .bool c.enable_composition_analysis),
        ("enable_distance_estimation", .bool c.enable_distance_estimation)]

def frameSelectionConfigToData (c : FrameSelectionConfig) : JValue :=
  .obj [("min_quality_threshold", .num c.min_quality_threshold),
        ("face_size_weight", .num c.face_size_weight),
        ("quality_weight", .num c.quality_weight),
        ("diversity_threshold", .num c.diversity_threshold)]

def pngConfigToData (c : PngConfig) : JValue :=
  .obj [("optimize", .bool c.optimize)]

def jpegConfigToData (c : JpegConfig) : JValue :=
  .obj [("quality", .num (c.quality : ℚ))]

def outputImageConfigToData (c : OutputImageConfig) : JValue :=
  .obj [("format", .str c.format),
        ("face_crop_enabled", .bool c.face_crop_enabled),
        ("full_frame_enabled", .bool c.full_frame_enabled),
        ("face_crop_padding", .num c.face_crop_padding),
        ("resize", optIntData c.resize),
        ("png", pngConfigToData c.png),
        ("jpeg", jpegConfigToData c.jpeg)]

def outputConfigToData (c : OutputConfig) : JValue :=
  .obj [("min_frames_per_category", .num (c.min_frames_per_category : ℚ)),
        ("preserve_metadata", .bool c.preserve_metadata),
        ("image", outputImageConfigToData c.image)]

def storageConfigToData (c : StorageConfig) : JValue :=
  .obj [("cache_directory", .str c.cache_directory),
        ("temp_directory", optPathData c.temp_directory),
        ("cleanup_temp_on_success", .bool c.cleanup_temp_on_success),
        ("cleanup_temp_on_failure", .bool c.cleanup_temp_on_failure),
        ("keep_temp", .bool c.keep_temp),
        ("force_temp_cleanup", .bool c.force_temp_cleanup),
        ("max_cache_size_gb", .num c.max_cache_size_gb)]

def processingConfigToData (c : ProcessingConfig) : JValue :=
  .obj [("enable_resume", .bool c.enable_resume),
        ("save_intermediate_results", .bool c.save_intermediate_results),
        ("max_processing_time_minutes",
          optIntData c.max_processing_time_minutes),
        ("parallel_workers", .num (c.parallel_workers : ℚ))]

def loggingConfigToData (c : LoggingConfig) : JValue :=
  .obj [("level", .str (levelStr c.level)),
        ("enable_file_logging", .bool c.enable_file_logging),
        ("log_file", optPathData c.log_file),
        ("enable_rich_console", .bool c.enable_rich_console),
        ("enable_structured_output", .bool c.enable_structured_output),
        ("verbose", .bool c.verbose)]

/-- `self.dict()`: the full tree as written by `to_file`, with enum and
path fields rendered as plain strings by the field serializers. -/
def configToData (c : Config) : JValue :=
  .obj [("models", modelConfigToData c.models),
        ("frame_extraction", frameExtractionConfigToData c.frame_extraction),
        ("quality", qualityConfigToData c.quality),
        ("pose_classification",
          poseClassificationConfigToData c.pose_classification),
        ("head_angle", headAngleConfigToData c.head_angle),
        ("closeup_detection",
          closeupDetectionConfigToData c.closeup_detection),
        ("frame_selection", frameSelectionConfigToData c.frame_selection),
        ("output", outputConfigToData c.output),
        ("storage", storageConfigToData c.storage),
        ("processing", processingConfigToData c.processing),
        ("logging", loggingConfigToData c.logging)]

/-! ## File façade: `from_file` / `to_file` / `from_env`

The YAML and JSON text codecs themselves are external libraries; a file
is modelled by the scalar tree its appropriate parser would produce
(both parsers land in the same tree type), so format dispatch and
validation are modelled and byte-level parsing is abstracted. -/

/-- `Path(p).suffix.lower()`. -/
def pathSuffixLower (path : String) : PyStr :=
  pyLower (pySplitExt (lastComponent path.data)).2

/-- `Config.from_file`: missing file → not-found error; `.yaml`/`.yml`
parse as YAML and `.json` as JSON (both yield the file's scalar tree);
any other extension → unsupported-format error; then validate. -/
def fromFile (fs : List (String × JValue)) (path : String) :
    Except ConfigError Config :=
  match (fs.find? (fun p => p.1 == path)).map (fun p => p.2) with
  | none => .error (.notFound path)
  | some v =>
    if pathSuffixLower path = pstr ".yaml" ∨
        pathSuffixLower path = pstr ".yml" then
      configFromData v
    else if pathSuffixLower path = pstr ".json" then
      configFromData v
    else
      .error (.unsupportedFormat (String.mk (pathSuffixLower path)))

/-- `Config.to_file`: serialize `self.dict()` as YAML or JSON according to
the extension; other extensions raise the unsupported-format error.  The
returned value is the scalar tree written to the file. -/
def toFile (c : Config) (path : String) : Except ConfigError JValue :=
  if pathSuffixLower path = pstr ".yaml" ∨
      pathSuffixLower path = pstr ".yml" then
    .ok (configToData c)
  else if pathSuffixLower path = pstr ".json" then
    .ok (configToData c)
  else
    .error (.unsupportedFormat (String.mk (pathSuffixLower path)))

/-- `Config.from_env`: the source body is `return cls()` — it constructs
the schema defaults and never reads the process environment (the
`env_prefix`/`env_nested_delimiter` keys in `model_config` are
`BaseSettings` options that a plain pydantic `BaseModel` ignores).  The
environment is passed here explicitly to make that observable. -/
def fromEnv (env : List (String × String)) : Config :=
  defaultConfig

end PersonFromVid

namespace PersonFromVid

/-! ## Evaluation lemmas for the field checks -/

theorem checkFloat_num {lo hi : Option ℚ} {q : ℚ}
    (h : withinQ lo hi q = true) (fp : List String) (d : ℚ) :
    checkFloat fp lo hi d (some (.num q)) = .ok q := by
  simp [checkFloat, h]

theorem checkInt_num {lo hi : Option ℤ} {z : ℤ}
    (h : withinZ lo hi z = true) (fp : List String) (d : ℤ) :
    checkInt fp lo hi d (some (.num (z : ℚ))) = .ok z := by
  simp [checkInt, Rat.den_intCast, Rat.num_intCast, h]

theorem checkOptInt_num {lo hi : Option ℤ} {z : ℤ}
    (h : withinZ lo hi z = true) (fp : List String) (d : Option ℤ) :
    checkOptInt fp lo hi d (some (.num (z : ℚ))) = .ok (some z) := by
  simp [checkOptInt, Rat.den_intCast, Rat.num_intCast, h]

theorem checkDevice_serialized (fp : List String) (d x : DeviceType) :
    checkDevice fp d (some (.str (deviceStr x))) = .ok x := by
  cases x <;> rfl

theorem checkLevel_serialized (fp : List String) (d x : LogLevel) :
    checkLevel fp d (some (.str (levelStr x))) = .ok x := by
  cases x <;> rfl

theorem optIntData_check {lo hi : Option ℤ}
    (o : Option ℤ) (h : ∀ z ∈ o, withinZ lo hi z = true)
    (fp : List String) (d : Option ℤ) :
    checkOptInt fp lo hi d (some (optIntData o)) = .ok o := by
  cases o with
  | none => rfl
  | some z =>
    exact checkOptInt_num (h z (Option.mem_def.2 rfl)) fp d

theorem optPathData_check (o : Option String) (fp : List String)
    (d : Option String) :
    checkOptPath fp d (some (optPathData o)) = .ok o := by
  cases o <;> rfl

/-! ## Claim C2: the weight-sum constraint -/

/-- Constructing `FrameSelectionConfig` with only `face_size_weight`
supplied runs no weight-sum check: the validator body is guarded by
`info.field_name == "quality_weight"` and the defaulted `quality_weight`
is never validated. -/
theorem frameSelection_face_only (f : ℚ)
    (hf : withinQ (some 0) (some 1) f = true) :
    frameSelectionConfigOfData ["frame_selection"]
      (.obj [("face_size_weight", .num f)]) =
      .ok { min_quality_threshold := 2/10, face_size_weight := f,
            quality_weight := 7/10, diversity_threshold := 8/10 } := by
  have step : frameSelectionConfigOfData ["frame_selection"]
      (.obj [("face_size_weight", .num f)]) =
      (checkFloat (["frame_selection"] ++ ["face_size_weight"]) (some 0)
        (some 1) (3/10) (some (.num f))).bind
        (fun fsw => .ok ⟨2/10, fsw, 7/10, 8/10⟩) := rfl
  rw [step, checkFloat_num hf]
  rfl

/-- Constructing `FrameSelectionConfig` with both weights supplied runs the
weight-sum validator while `quality_weight` is validated, against the
already-validated `face_size_weight`. -/
theorem frameSelection_both_weights (f q : ℚ)
    (hf : withinQ (some 0) (some 1) f = true)
    (hq : withinQ (some 0) (some 1) q = true) :
    frameSelectionConfigOfData ["frame_selection"]
      (.obj [("face_size_weight", .num f), ("quality_weight", .num q)]) =
      (if 1 < f + q then .error ["frame_selection", "quality_weight"]
       else .ok { min_quality_threshold := 2/10, face_size_weight := f,
                  quality_weight := q, diversity_threshold := 8/10 }) := by
  have step : frameSelectionConfigOfData ["frame_selection"]
      (.obj [("face_size_weight", .num f), ("quality_weight", .num q)]) =
      (checkFloat (["frame_selection"] ++ ["face_size_weight"]) (some 0)
        (some 1) (3/10) (some (.num f))).bind (fun fsw =>
      (checkFloat (["frame_selection"] ++ ["quality_weight"]) (some 0)
        (some 1) (7/10) (some (.num q))).bind (fun qw =>
      if (some (JValue.num q)).isSome && decide (1 < fsw + qw) then
        .error (["frame_selection"] ++ ["quality_weight"])
      else
        .ok ⟨2/10, fsw, qw, 8/10⟩)) := rfl
  rw [step, checkFloat_num hf, checkFloat_num hq]
  by_cases hsum : 1 < f + q
  · rw [if_pos hsum]
    show (if (some (JValue.num q)).isSome && decide (1 < f + q) then _
          else _) = _
    rw [decide_eq_true hsum]
    rfl
  · rw [if_neg hsum]
    show (if (some (JValue.num q)).isSome && decide (1 < f + q) then _
          else _) = _
    rw [decide_eq_false hsum]
    rfl

end PersonFromVid

namespace PersonFromVid

theorem withinQ_unit_iff (q : ℚ) :
    withinQ (some 0) (some 1) q = true ↔ 0 ≤ q ∧ q ≤ 1 := by
  simp [withinQ]

/-- Claim C2 (counterexample): the weight-sum constraint is *not* validated
at every construction — supplying only `face_size_weight = 0.9` (in range)
succeeds and leaves `quality_weight` at its default `0.7`, so a
`FrameSelectionConfig` with `face_size_weight + quality_weight = 1.6 > 1.0`
is constructible, and no assignment-time re-validation exists on
`FrameSelectionConfig` (it does not enable `validate_assignment`). -/
theorem frameSelection_sum_unchecked_cex :
    frameSelectionConfigOfData ["frame_selection"]
      (.obj [("face_size_weight", .num (9/10))]) =
      .ok { min_quality_threshold := 2/10, face_size_weight := 9/10,
            quality_weight := 7/10, diversity_threshold := 8/10 } ∧
    ¬ ((9 : ℚ)/10 + 7/10 ≤ 1) := by
  constructor
  · exact frameSelection_face_only (9/10)
      ((withinQ_unit_iff _).2 ⟨by norm_num, by norm_num⟩)
  · norm_num

/-- Claim C2 (amended): the weight-sum constraint is enforced only while an
explicitly supplied `quality_weight` is validated at construction, using
the previously validated `face_size_weight` (or its default `0.3` when
absent); an in-range pair with sum above 1 fails construction with a
validation error at `frame_selection.quality_weight`, and an in-range pair
with sum at most 1 is accepted as given. -/
theorem weight_sum_checked_on_explicit_quality (f q : ℚ)
    (hf : 0 ≤ f ∧ f ≤ 1) (hq : 0 ≤ q ∧ q ≤ 1) :
    (1 < f + q →
      frameSelectionConfigOfData ["frame_selection"]
        (.obj [("face_size_weight", .num f), ("quality_weight", .num q)]) =
        .error ["frame_selection", "quality_weight"]) ∧
    (f + q ≤ 1 →
      frameSelectionConfigOfData ["frame_selection"]
        (.obj [("face_size_weight", .num f), ("quality_weight", .num q)]) =
        .ok { min_quality_threshold := 2/10, face_size_weight := f,
              quality_weight := q, diversity_threshold := 8/10 }) := by
  have hf' := (withinQ_unit_iff f).2 hf
  have hq' := (withinQ_unit_iff q).2 hq
  constructor
  · intro h
    rw [frameSelection_both_weights f q hf' hq', if_pos h]
  · intro h
    rw [frameSelection_both_weights f q hf' hq', if_neg (not_lt.2 h)]

/-- Witness for the amended C2: `face_size_weight = 0.6` with
`quality_weight = 0.5` is rejected (sum 1.1), while `quality_weight = 0.4`
is accepted. -/
theorem weight_sum_checked_on_explicit_quality_witness :
    frameSelectionConfigOfData ["frame_selection"]
      (.obj [("face_size_weight", .num (6/10)),
             ("quality_weight", .num (5/10))]) =
      .error ["frame_selection", "quality_weight"] ∧
    frameSelectionConfigOfData ["frame_selection"]
      (.obj [("face_size_weight", .num (6/10)),
             ("quality_weight", .num (4/10))]) =
      .ok { min_quality_threshold := 2/10, face_size_weight := 6/10,
            quality_weight := 4/10, diversity_threshold := 8/10 } := by
  constructor
  · exact (weight_sum_checked_on_explicit_quality (6/10) (5/10)
      ⟨by norm_num, by norm_num⟩ ⟨by norm_num, by norm_num⟩).1 (by norm_num)
  · exact (weight_sum_checked_on_explicit_quality (6/10) (4/10)
      ⟨by norm_num, by norm_num⟩ ⟨by norm_num, by norm_num⟩).2 (by norm_num)

/-- Claim C3 (code bug): `Config.from_env`, despite its docstring "Load
configuration with environment variable overrides" and the configured
`env_prefix = "PERSONFROMVID_"` / `env_nested_delimiter = "__"`, is just
`return cls()`: the process environment is never read (those keys are
`BaseSettings` options that a plain pydantic `BaseModel` ignores), so
`PERSONFROMVID_MODELS__BATCH_SIZE=4` leaves `models.batch_size` at its
default `1`. -/
theorem fromEnv_ignores_environment :
    (∀ env : List (String × String), fromEnv env = defaultConfig) ∧
    (fromEnv [("PERSONFROMVID_MODELS__BATCH_SIZE", "4")]).models.batch_size
      = 1 :=
  ⟨fun _ => rfl, rfl⟩

end PersonFromVid

namespace PersonFromVid

/-! ## Declared per-field bounds, as predicates on constructed configs -/

def modelConfigInBounds (c : ModelConfig) : Bool :=
  withinZ (some 1) (some 64) c.batch_size &&
  withinQ (some 0) (some 1) c.confidence_threshold

def frameExtractionConfigInBounds (c : FrameExtractionConfig) : Bool :=
  withinQ (some (1/10)) (some 2) c.temporal_sampling_interval &&
  c.max_frames_per_video.all (fun z => withinZ (some 10) none z)

def qualityConfigInBounds (c : QualityConfig) : Bool :=
  withinQ (some 10) none c.blur_threshold &&
  withinQ (some 0) (some 255) c.brightness_min &&
  withinQ (some 0) (some 255) c.brightness_max &&
  withinQ (some 0) none c.contrast_min

def poseClassificationConfigInBounds (c : PoseClassificationConfig) : Bool :=
  withinQ (some 120) (some 180) c.standing_hip_knee_angle_min &&
  withinQ (some 45) (some 120) c.sitting_hip_knee_angle_min &&
  withinQ (some 80) (some 160) c.sitting_hip_knee_angle_max &&
  withinQ (some 45) (some 120) c.squatting_hip_knee_angle_max &&
  withinQ (some (5/100)) (some (1/2)) c.closeup_face_area_threshold

def headAngleConfigInBounds (c : HeadAngleConfig) : Bool :=
  withinQ (some 10) (some 45) c.yaw_threshold_degrees &&
  withinQ (some 10) (some 45) c.pitch_threshold_degrees &&
  withinQ (some 15) (some 60) c.max_roll_degrees &&
  withinQ (some 45) (some 90) c.profile_yaw_threshold

def closeupDetectionConfigInBounds (c : CloseupDetectionConfig) : Bool :=
  withinQ (some (15/100)) (some (1/2)) c.extreme_closeup_threshold &&
  withinQ (some (8/100)) (some (3/10)) c.closeup_threshold &&
  withinQ (some (4/100)) (some (15/100)) c.medium_closeup_threshold &&
  withinQ (some (1/100)) (some (8/100)) c.medium_shot_threshold &&
  withinQ (some (2/10)) (some (6/10)) c.shoulder_width_threshold

def frameSelectionConfigInBounds (c : FrameSelectionConfig) : Bool :=
  withinQ (some 0) (some 1) c.min_quality_threshold &&
  withinQ (some 0) (some 1) c.face_size_weight &&
  withinQ (some 0) (some 1) c.quality_weight &&
  withinQ (some 0) (some 1) c.diversity_threshold

def outputImageConfigInBounds (c : OutputImageConfig) : Bool :=
  withinQ (some 0) (some 1) c.face_crop_padding &&
  c.resize.all (fun z => withinZ (some 256) (some 4096) z) &&
  withinZ (some 70) (some 100) c.jpeg.quality

def outputConfigInBounds (c : OutputConfig) : Bool :=
  withinZ (some 1) (some 10) c.min_frames_per_category &&
  outputImageConfigInBounds c.image

def storageConfigInBounds (c : StorageConfig) : Bool :=
  withinQ (some (1/2)) (some 50) c.max_cache_size_gb

def processingConfigInBounds (c : ProcessingConfig) : Bool :=
  c.max_processing_time_minutes.all (fun z => withinZ (some 1) none z) &&
  withinZ (some 1) (some 16) c.parallel_workers

/-- All declared per-field range bounds of the schema (the cross-field
weight-sum constraint is deliberately not part of this predicate). -/
def configInBounds (c : Config) : Bool :=
  modelConfigInBounds c.models &&
  frameExtractionConfigInBounds c.frame_extraction &&
  qualityConfigInBounds c.quality &&
  poseClassificationConfigInBounds c.pose_classification &&
  headAngleConfigInBounds c.head_angle &&
  closeupDetectionConfigInBounds c.closeup_detection &&
  frameSelectionConfigInBounds c.frame_selection &&
  outputConfigInBounds c.output &&
  storageConfigInBounds c.storage &&
  processingConfigInBounds c.processing

end PersonFromVid

namespace PersonFromVid

/-! ## Per-group serialize-then-validate round trips -/

theorem optionAll_mem {α : Type} {p : α → Bool} {o : Option α}
    (h : o.all p = true) : ∀ z ∈ o, p z = true := by
  cases o with
  | none => intro z hz; simp at hz
  | some w =>
    intro z hz
    rw [Option.mem_def] at hz
    injection hz with hwz
    subst hwz
    exact h

theorem modelConfig_roundtrip (fp : List String) (c : ModelConfig)
    (hb : modelConfigInBounds c = true) :
    modelConfigOfData fp (modelConfigToData c) = .ok c := by
  obtain ⟨hbs, hct⟩ := Bool.and_eq_true_iff.1 hb
  have step : modelConfigOfData fp (modelConfigToData c) =
      (checkDevice (fp ++ ["device"]) .auto
        (some (.str (deviceStr c.device)))).bind (fun dev =>
      (checkInt (fp ++ ["batch_size"]) (some 1) (some 64) 1
        (some (.num (c.batch_size : ℚ)))).bind (fun bs =>
      (checkFloat (fp ++ ["confidence_threshold"]) (some 0) (some 1)
        (3/10) (some (.num c.confidence_threshold))).bind (fun ct =>
      .ok ⟨c.face_detection_model, c.pose_estimation_model,
           c.head_pose_model, dev, bs, ct⟩))) := rfl
  rw [step, checkDevice_serialized, checkInt_num hbs, checkFloat_num hct]
  rfl

theorem frameExtractionConfig_roundtrip (fp : List String)
    (c : FrameExtractionConfig)
    (hb : frameExtractionConfigInBounds c = true) :
    frameExtractionConfigOfData fp (frameExtractionConfigToData c) =
      .ok c := by
  obtain ⟨hts, hmf⟩ := Bool.and_eq_true_iff.1 hb
  have step : frameExtractionConfigOfData fp
      (frameExtractionConfigToData c) =
      (checkFloat (fp ++ ["temporal_sampling_interval"]) (some (1/10))
        (some 2) (1/4) (some (.num c.temporal_sampling_interval))).bind
        (fun tsi =>
      (checkOptInt (fp ++ ["max_frames_per_video"]) (some 10) none none
        (some (optIntData c.max_frames_per_video))).bind (fun mfv =>
      .ok ⟨tsi, c.enable_keyframe_detection, c.enable_temporal_sampling,
           mfv, c.deduplication_enabled⟩)) := rfl
  rw [step, checkFloat_num hts,
    optIntData_check c.max_frames_per_video (optionAll_mem hmf)]
  rfl

theorem qualityConfig_roundtrip (fp : List String) (c : QualityConfig)
    (hb : qualityConfigInBounds c = true) :
    qualityConfigOfData fp (qualityConfigToData c) = .ok c := by
  simp only [qualityConfigInBounds, Bool.and_eq_true] at hb
  obtain ⟨⟨⟨h1, h2⟩, h3⟩, h4⟩ := hb
  have step : qualityConfigOfData fp (qualityConfigToData c) =
      (checkFloat (fp ++ ["blur_threshold"]) (some 10) none 100
        (some (.num c.blur_threshold))).bind (fun bt =>
      (checkFloat (fp ++ ["brightness_min"]) (some 0) (some 255) 30
        (some (.num c.brightness_min))).bind (fun bmin =>
      (checkFloat (fp ++ ["brightness_max"]) (some 0) (some 255) 225
        (some (.num c.brightness_max))).bind (fun bmax =>
      (checkFloat (fp ++ ["contrast_min"]) (some 0) none 20
        (some (.num c.contrast_min))).bind (fun cmin =>
      .ok ⟨bt, bmin, bmax, cmin, c.enable_multiple_metrics⟩)))) := rfl
  rw [step, checkFloat_num h1, checkFloat_num h2, checkFloat_num h3,
    checkFloat_num h4]
  rfl

end PersonFromVid

namespace PersonFromVid

theorem poseClassificationConfig_roundtrip (fp : List String)
    (c : PoseClassificationConfig)
    (hb : poseClassificationConfigInBounds c = true) :
    poseClassificationConfigOfData fp (poseClassificationConfigToData c) =
      .ok c := by
  simp only [poseClassificationConfigInBounds, Bool.and_eq_true] at hb
  obtain ⟨⟨⟨⟨h1, h2⟩, h3⟩, h4⟩, h5⟩ := hb
  have step : poseClassificationConfigOfData fp
      (poseClassificationConfigToData c) =
      (checkFloat (fp ++ ["standing_hip_knee_angle_min"]) (some 120)
        (some 180) 160 (some (.num c.standing_hip_knee_angle_min))).bind
        (fun a =>
      (checkFloat (fp ++ ["sitting_hip_knee_angle_min"]) (some 45)
        (some 120) 80 (some (.num c.sitting_hip_knee_angle_min))).bind
        (fun b =>
      (checkFloat (fp ++ ["sitting_hip_knee_angle_max"]) (some 80)
        (some 160) 120 (some (.num c.sitting_hip_knee_angle_max))).bind
        (fun c' =>
      (checkFloat (fp ++ ["squatting_hip_knee_angle_max"]) (some 45)
        (some 120) 90 (some (.num c.squatting_hip_knee_angle_max))).bind
        (fun d =>
      (checkFloat (fp ++ ["closeup_face_area_threshold"]) (some (5/100))
        (some (1/2)) (15/100)
        (some (.num c.closeup_face_area_threshold))).bind (fun e =>
      .ok ⟨a, b, c', d, e⟩))))) := rfl
  rw [step, checkFloat_num h1, checkFloat_num h2, checkFloat_num h3,
    checkFloat_num h4, checkFloat_num h5]
  rfl

theorem headAngleConfig_roundtrip (fp : List String) (c : HeadAngleConfig)
    (hb : headAngleConfigInBounds c = true) :
    headAngleConfigOfData fp (headAngleConfigToData c) = .ok c := by
  simp only [headAngleConfigInBounds, Bool.and_eq_true] at hb
  obtain ⟨⟨⟨h1, h2⟩, h3⟩, h4⟩ := hb
  have step : headAngleConfigOfData fp (headAngleConfigToData c) =
      (checkFloat (fp ++ ["yaw_threshold_degrees"]) (some 10) (some 45)
        (45/2) (some (.num c.yaw_threshold_degrees))).bind (fun a =>
      (checkFloat (fp ++ ["pitch_threshold_degrees"]) (some 10) (some 45)
        (45/2) (some (.num c.pitch_threshold_degrees))).bind (fun b =>
      (checkFloat (fp ++ ["max_roll_degrees"]) (some 15) (some 60) 30
        (some (.num c.max_roll_degrees))).bind (fun c' =>
      (checkFloat (fp ++ ["profile_yaw_threshold"]) (some 45) (some 90)
        (135/2) (some (.num c.profile_yaw_threshold))).bind (fun d =>
      .ok ⟨a, b, c', d⟩)))) := rfl
  rw [step, checkFloat_num h1, checkFloat_num h2, checkFloat_num h3,
    checkFloat_num h4]
  rfl

theorem closeupDetectionConfig_roundtrip (fp : List String)
    (c : CloseupDetectionConfig)
    (hb : closeupDetectionConfigInBounds c = true) :
    closeupDetectionConfigOfData fp (closeupDetectionConfigToData c) =
      .ok c := by
  simp only [closeupDetectionConfigInBounds, Bool.and_eq_true] at hb
  obtain ⟨⟨⟨⟨h1, h2⟩, h3⟩, h4⟩, h5⟩ := hb
  have step : closeupDetectionConfigOfData fp
      (closeupDetectionConfigToData c) =
      (checkFloat (fp ++ ["extreme_closeup_threshold"]) (some (15/100))
        (some (1/2)) (1/4) (some (.num c.extreme_closeup_threshold))).bind
        (fun a =>
      (checkFloat (fp ++ ["closeup_threshold"]) (some (8/100))
        (some (3/10)) (15/100) (some (.num c.closeup_threshold))).bind
        (fun b =>
      (checkFloat (fp ++ ["medium_closeup_threshold"]) (some (4/100))
        (some (15/100)) (8/100)
        (some (.num c.medium_closeup_threshold))).bind (fun c' =>
      (checkFloat (fp ++ ["medium_shot_threshold"]) (some (1/100))
        (some (8/100)) (3/100)
        (some (.num c.medium_shot_threshold))).bind (fun d =>
      (checkFloat (fp ++ ["shoulder_width_threshold"]) (some (2/10))
        (some (6/10)) (35/100)
        (some (.num c.shoulder_width_threshold))).bind (fun e =>
      .ok ⟨a, b, c', d, e, c.enable_composition_analysis,
           c.enable_distance_estimation⟩))))) := rfl
  rw [step, checkFloat_num h1, checkFloat_num h2, checkFloat_num h3,
    checkFloat_num h4, checkFloat_num h5]
  rfl

/-- Validating a serialized `FrameSelectionConfig` re-runs the weight-sum
validator (both weights are explicitly present in the dump). -/
theorem frameSelection_fromToData (fp : List String)
    (c : FrameSelectionConfig)
    (hb : frameSelectionConfigInBounds c = true) :
    frameSelectionConfigOfData fp (frameSelectionConfigToData c) =
      (if 1 < c.face_size_weight + c.quality_weight then
        .error (fp ++ ["quality_weight"])
      else .ok c) := by
  simp only [frameSelectionConfigInBounds, Bool.and_eq_true] at hb
  obtain ⟨⟨⟨h1, h2⟩, h3⟩, h4⟩ := hb
  have step : frameSelectionConfigOfData fp
      (frameSelectionConfigToData c) =
      (checkFloat (fp ++ ["min_quality_threshold"]) (some 0) (some 1)
        (2/10) (some (.num c.min_quality_threshold))).bind (fun mqt =>
      (checkFloat (fp ++ ["face_size_weight"]) (some 0) (some 1) (3/10)
        (some (.num c.face_size_weight))).bind (fun fsw =>
      (checkFloat (fp ++ ["quality_weight"]) (some 0) (some 1) (7/10)
        (some (.num c.quality_weight))).bind (fun qw =>
      if (some (JValue.num c.quality_weight)).isSome &&
          decide (1 < fsw + qw) then
        .error (fp ++ ["quality_weight"])
      else
        (checkFloat (fp ++ ["diversity_threshold"]) (some 0) (some 1)
          (8/10) (some (.num c.diversity_threshold))).bind (fun dt =>
        .ok ⟨mqt, fsw, qw, dt⟩)))) := rfl
  rw [step, checkFloat_num h1, checkFloat_num h2, checkFloat_num h3]
  by_cases hsum : 1 < c.face_size_weight + c.quality_weight
  · rw [if_pos hsum]
    show (if (some (JValue.num c.quality_weight)).isSome &&
        decide (1 < c.face_size_weight + c.quality_weight) then _
        else _) = _
    rw [decide_eq_true hsum]
    rfl
  · rw [if_neg hsum]
    show (if (some (JValue.num c.quality_weight)).isSome &&
        decide (1 < c.face_size_weight + c.quality_weight) then _
        else _) = _
    rw [decide_eq_false hsum]
    show (checkFloat (fp ++ ["diversity_threshold"]) (some 0) (some 1)
      (8/10) (some (.num c.diversity_threshold))).bind _ = _
    rw [checkFloat_num h4]
    rfl

end PersonFromVid

namespace PersonFromVid

theorem jpegConfig_roundtrip (fp : List String) (c : JpegConfig)
    (hb : withinZ (some 70) (some 100) c.quality = true) :
    jpegConfigOfData fp (jpegConfigToData c) = .ok c := by
  have step : jpegConfigOfData fp (jpegConfigToData c) =
      (checkInt (fp ++ ["quality"]) (some 70) (some 100) 95
        (some (.num (c.quality : ℚ)))).bind (fun q => .ok ⟨q⟩) := rfl
  rw [step, checkInt_num hb]
  rfl

theorem outputImageConfig_roundtrip (fp : List String)
    (c : OutputImageConfig) (hb : outputImageConfigInBounds c = true) :
    outputImageConfigOfData fp (outputImageConfigToData c) = .ok c := by
  simp only [outputImageConfigInBounds, Bool.and_eq_true] at hb
  obtain ⟨⟨h1, h2⟩, h3⟩ := hb
  have step : outputImageConfigOfData fp (outputImageConfigToData c) =
      (checkFloat (fp ++ ["face_crop_padding"]) (some 0) (some 1) (2/10)
        (some (.num c.face_crop_padding))).bind (fun fcp =>
      (checkOptInt (fp ++ ["resize"]) (some 256) (some 4096) none
        (some (optIntData c.resize))).bind (fun rsz =>
      (jpegConfigOfData (fp ++ ["jpeg"])
        (jpegConfigToData c.jpeg)).bind (fun jpeg =>
      .ok ⟨c.format, c.face_crop_enabled, c.full_frame_enabled, fcp, rsz,
           ⟨c.png.optimize⟩, jpeg⟩))) := rfl
  rw [step, checkFloat_num h1, optIntData_check c.resize (optionAll_mem h2),
    jpegConfig_roundtrip (fp ++ ["jpeg"]) c.jpeg h3]
  rfl

theorem outputConfig_roundtrip (fp : List String) (c : OutputConfig)
    (hb : outputConfigInBounds c = true) :
    outputConfigOfData fp (outputConfigToData c) = .ok c := by
  simp only [outputConfigInBounds, Bool.and_eq_true] at hb
  obtain ⟨h1, h2⟩ := hb
  have step : outputConfigOfData fp (outputConfigToData c) =
      (checkInt (fp ++ ["min_frames_per_category"]) (some 1) (some 10) 3
        (some (.num (c.min_frames_per_category : ℚ)))).bind (fun mfc =>
      (outputImageConfigOfData (fp ++ ["image"])
        (outputImageConfigToData c.image)).bind (fun img =>
      .ok ⟨mfc, c.preserve_metadata, img⟩)) := rfl
  rw [step, checkInt_num h1,
    outputImageConfig_roundtrip (fp ++ ["image"]) c.image h2]
  rfl

theorem storageConfig_roundtrip (fp : List String) (c : StorageConfig)
    (hb : storageConfigInBounds c = true) :
    storageConfigOfData fp (storageConfigToData c) = .ok c := by
  have h1 : withinQ (some (1/2)) (some 50) c.max_cache_size_gb = true := hb
  have step : storageConfigOfData fp (storageConfigToData c) =
      (checkOptPath (fp ++ ["temp_directory"]) none
        (some (optPathData c.temp_directory))).bind (fun td =>
      (checkFloat (fp ++ ["max_cache_size_gb"]) (some (1/2)) (some 50) 5
        (some (.num c.max_cache_size_gb))).bind (fun mcs =>
      .ok ⟨c.cache_directory, td, c.cleanup_temp_on_success,
           c.cleanup_temp_on_failure, c.keep_temp, c.force_temp_cleanup,
           mcs⟩)) := rfl
  rw [step, optPathData_check c.temp_directory, checkFloat_num h1]
  rfl

theorem processingConfig_roundtrip (fp : List String) (c : ProcessingConfig)
    (hb : processingConfigInBounds c = true) :
    processingConfigOfData fp (processingConfigToData c) = .ok c := by
  simp only [processingConfigInBounds, Bool.and_eq_true] at hb
  obtain ⟨h1, h2⟩ := hb
  have step : processingConfigOfData fp (processingConfigToData c) =
      (checkOptInt (fp ++ ["max_processing_time_minutes"]) (some 1) none
        none (some (optIntData c.max_processing_time_minutes))).bind
        (fun mpt =>
      (checkInt (fp ++ ["parallel_workers"]) (some 1) (some 16) 1
        (some (.num (c.parallel_workers : ℚ)))).bind (fun pw =>
      .ok ⟨c.enable_resume, c.save_intermediate_results, mpt, pw⟩)) := rfl
  rw [step,
    optIntData_check c.max_processing_time_minutes (optionAll_mem h1),
    checkInt_num h2]
  rfl

theorem loggingConfig_roundtrip (fp : List String) (c : LoggingConfig) :
    loggingConfigOfData fp (loggingConfigToData c) = .ok c := by
  have step : loggingConfigOfData fp (loggingConfigToData c) =
      (checkLevel (fp ++ ["level"]) .info
        (some (.str (levelStr c.level)))).bind (fun lvl =>
      (checkOptPath (fp ++ ["log_file"]) none
        (some (optPathData c.log_file))).bind (fun lf =>
      .ok ⟨lvl, c.enable_file_logging, lf, c.enable_rich_console,
           c.enable_structured_output, c.verbose⟩)) := rfl
  rw [step, checkLevel_serialized, optPathData_check c.log_file]
  rfl

end PersonFromVid

namespace PersonFromVid

/-- Validating a full serialized `Config`: all groups re-validate from
their dumps; the weight-sum validator re-fires on the explicitly present
`quality_weight`. -/
theorem configValidate_toData (c : Config) (hb : configInBounds c = true) :
    configValidate (configToData c) =
      (if 1 < c.frame_selection.face_size_weight +
          c.frame_selection.quality_weight then
        .error (["frame_selection"] ++ ["quality_weight"])
      else .ok c) := by
  simp only [configInBounds, Bool.and_eq_true] at hb
  obtain ⟨⟨⟨⟨⟨⟨⟨⟨⟨h1, h2⟩, h3⟩, h4⟩, h5⟩, h6⟩, h7⟩, h8⟩, h9⟩, h10⟩ := hb
  have step : configValidate (configToData c) =
      (modelConfigOfData ["models"] (modelConfigToData c.models)).bind
        (fun models =>
      (frameExtractionConfigOfData ["frame_extraction"]
        (frameExtractionConfigToData c.frame_extraction)).bind (fun fe =>
      (qualityConfigOfData ["quality"]
        (qualityConfigToData c.quality)).bind (fun q =>
      (poseClassificationConfigOfData ["pose_classification"]
        (poseClassificationConfigToData c.pose_classification)).bind
        (fun pc =>
      (headAngleConfigOfData ["head_angle"]
        (headAngleConfigToData c.head_angle)).bind (fun ha =>
      (closeupDetectionConfigOfData ["closeup_detection"]
        (closeupDetectionConfigToData c.closeup_detection)).bind (fun cd =>
      (frameSelectionConfigOfData ["frame_selection"]
        (frameSelectionConfigToData c.frame_selection)).bind (fun fs =>
      (outputConfigOfData ["output"]
        (outputConfigToData c.output)).bind (fun op =>
      (storageConfigOfData ["storage"]
        (storageConfigToData c.storage)).bind (fun st =>
      (processingConfigOfData ["processing"]
        (processingConfigToData c.processing)).bind (fun pr =>
      (loggingConfigOfData ["logging"]
        (loggingConfigToData c.logging)).bind (fun lg =>
      .ok ⟨models, fe, q, pc, ha, cd, fs, op, st, pr, lg⟩)))))))))))
      := rfl
  rw [step, modelConfig_roundtrip _ _ h1,
    frameExtractionConfig_roundtrip _ _ h2, qualityConfig_roundtrip _ _ h3,
    poseClassificationConfig_roundtrip _ _ h4,
    headAngleConfig_roundtrip _ _ h5,
    closeupDetectionConfig_roundtrip _ _ h6,
    frameSelection_fromToData _ _ h7, outputConfig_roundtrip _ _ h8,
    storageConfig_roundtrip _ _ h9, processingConfig_roundtrip _ _ h10,
    loggingConfig_roundtrip]
  by_cases hsum : 1 < c.frame_selection.face_size_weight +
      c.frame_selection.quality_weight
  · rw [if_pos hsum, if_pos hsum]
    rfl
  · rw [if_neg hsum, if_neg hsum]
    rfl

end PersonFromVid

namespace PersonFromVid

/-- Nested key lookup in a parsed tree. -/
def jLookup (v : JValue) (path : List String) : Option JValue :=
  path.foldl
    (fun acc k => acc.bind (fun w =>
      match w with
      | .obj kvs => jGet kvs k
      | _ => none))
    (some v)

/-- Reading back the single file just written. -/
theorem fromFile_single (d : JValue) (path : String) :
    fromFile [(path, d)] path =
      (if pathSuffixLower path = pstr ".yaml" ∨
          pathSuffixLower path = pstr ".yml" then configFromData d
      else if pathSuffixLower path = pstr ".json" then configFromData d
      else .error (.unsupportedFormat (String.mk (pathSuffixLower path))))
      := by
  unfold fromFile
  rw [show (([(path, d)]).find? (fun p => p.1 == path)) = some (path, d)
    from List.find?_cons_of_pos _ (by simp)]
  rfl

/-- Claim C5 (amended): a `Config` whose fields are all within their
declared ranges *and* whose selection weights sum to at most 1 round-trips
through save/load (for a `.yaml`/`.yml`/`.json` path), and enum- and
path-valued fields serialize as plain strings in the written tree. -/
theorem config_file_roundtrip (c : Config) (path : String)
    (hb : configInBounds c = true)
    (hw : c.frame_selection.face_size_weight +
      c.frame_selection.quality_weight ≤ 1)
    (hext : pathSuffixLower path = pstr ".yaml" ∨
      pathSuffixLower path = pstr ".yml" ∨
      pathSuffixLower path = pstr ".json") :
    toFile c path = .ok (configToData c) ∧
    fromFile [(path, configToData c)] path = .ok c ∧
    jLookup (configToData c) ["models", "device"] =
      some (.str (deviceStr c.models.device)) ∧
    jLookup (configToData c) ["logging", "level"] =
      some (.str (levelStr c.logging.level)) ∧
    jLookup (configToData c) ["storage", "cache_directory"] =
      some (.str c.storage.cache_directory) := by
  have hvalid : configFromData (configToData c) = .ok c := by
    unfold configFromData
    rw [configValidate_toData c hb, if_neg (not_lt.2 hw)]
  refine ⟨?_, ?_, rfl, rfl, rfl⟩
  · unfold toFile
    rcases hext with h | h | h
    · rw [h, if_pos (Or.inl rfl)]
    · rw [h, if_pos (Or.inr rfl)]
    · rw [h, if_neg (by decide), if_pos rfl]
  · rw [fromFile_single]
    rcases hext with h | h | h
    · rw [h, if_pos (Or.inl rfl), hvalid]
    · rw [h, if_pos (Or.inr rfl), hvalid]
    · rw [h, if_neg (by decide), if_pos rfl, hvalid]

end PersonFromVid

namespace PersonFromVid

theorem defaultConfig_inBounds : configInBounds defaultConfig = true := by
  simp only [configInBounds, modelConfigInBounds,
    frameExtractionConfigInBounds, qualityConfigInBounds,
    poseClassificationConfigInBounds, headAngleConfigInBounds,
    closeupDetectionConfigInBounds, frameSelectionConfigInBounds,
    outputConfigInBounds, outputImageConfigInBounds, storageConfigInBounds,
    processingConfigInBounds, withinQ, withinZ, defaultConfig,
    defaultModelConfig, defaultFrameExtractionConfig, defaultQualityConfig,
    defaultPoseClassificationConfig, defaultHeadAngleConfig,
    defaultCloseupDetectionConfig, defaultFrameSelectionConfig,
    defaultOutputConfig, defaultOutputImageConfig, defaultJpegConfig,
    defaultStorageConfig, defaultProcessingConfig, Option.all,
    Bool.and_eq_true, decide_eq_true_eq]
  norm_num

/-- Witness for the amended C5: the default configuration round-trips
through a `.yaml` save/load. -/
theorem config_file_roundtrip_witness :
    configInBounds defaultConfig = true ∧
    fromFile [("config.yaml", configToData defaultConfig)] "config.yaml" =
      .ok defaultConfig := by
  refine ⟨defaultConfig_inBounds, ?_⟩
  exact (config_file_roundtrip defaultConfig "config.yaml"
    defaultConfig_inBounds
    (by norm_num [defaultConfig, defaultFrameSelectionConfig])
    (Or.inl (by decide))).2.1

/-- An in-range configuration violating only the weight-sum constraint:
reachable through the code's own constructor by supplying
`face_size_weight = 0.9` and leaving `quality_weight` at its default. -/
def overweightConfig : Config :=
  { defaultConfig with
    frame_selection :=
      { defaultFrameSelectionConfig with face_size_weight := 9/10 } }

theorem overweightConfig_inBounds :
    configInBounds overweightConfig = true := by
  simp only [configInBounds, modelConfigInBounds,
    frameExtractionConfigInBounds, qualityConfigInBounds,
    poseClassificationConfigInBounds, headAngleConfigInBounds,
    closeupDetectionConfigInBounds, frameSelectionConfigInBounds,
    outputConfigInBounds, outputImageConfigInBounds, storageConfigInBounds,
    processingConfigInBounds, withinQ, withinZ, overweightConfig,
    defaultConfig, defaultModelConfig, defaultFrameExtractionConfig,
    defaultQualityConfig, defaultPoseClassificationConfig,
    defaultHeadAngleConfig, defaultCloseupDetectionConfig,
    defaultFrameSelectionConfig, defaultOutputConfig,
    defaultOutputImageConfig, defaultJpegConfig, defaultStorageConfig,
    defaultProcessingConfig, Option.all, Bool.and_eq_true,
    decide_eq_true_eq]
  norm_num

/-- Claim C5 (counterexample): a `Config` with every field in its declared
range need not round-trip — `overweightConfig` is constructible by the
code (first conjunct), is per-field in range (second), yet loading its own
dump fails with a validation error, because the dump carries
`quality_weight` explicitly and the weight-sum validator re-fires. -/
theorem config_file_roundtrip_cex :
    frameSelectionConfigOfData ["frame_selection"]
      (.obj [("face_size_weight", .num (9/10))]) =
      .ok overweightConfig.frame_selection ∧
    configInBounds overweightConfig = true ∧
    fromFile [("config.yaml", configToData overweightConfig)]
      "config.yaml" =
      .error (.validationError ["frame_selection", "quality_weight"]) := by
  refine ⟨?_, overweightConfig_inBounds, ?_⟩
  · exact frameSelection_face_only (9/10)
      ((withinQ_unit_iff _).2 ⟨by norm_num, by norm_num⟩)
  · rw [fromFile_single, if_pos (Or.inl (by decide))]
    unfold configFromData
    rw [configValidate_toData overweightConfig overweightConfig_inBounds,
      if_pos (by
        norm_num [overweightConfig, defaultFrameSelectionConfig])]
    rfl

end PersonFromVid

namespace PersonFromVid

/-! ## Validation soundness: accepted values satisfy the declared bounds -/

theorem exceptBind_ok {ε α β : Type} {x : Except ε α} {f : α → Except ε β}
    {b : β} (h : x.bind f = .ok b) : ∃ a, x = .ok a ∧ f a = .ok b := by
  cases x with
  | ok a => exact ⟨a, rfl, h⟩
  | error e => exact absurd h (by simp [Except.bind])

theorem checkFloat_ok {fp : List String} {lo hi : Option ℚ} {d : ℚ}
    {v : Option JValue} {q : ℚ} (hd : withinQ lo hi d = true)
    (h : checkFloat fp lo hi d v = .ok q) : withinQ lo hi q = true := by
  cases v with
  | none =>
    simp only [checkFloat] at h
    injection h with h'
    subst h'
    exact hd
  | some w =>
    cases w with
    | num q' =>
      simp only [checkFloat] at h
      split at h
      · next hcond =>
          injection h with h'
          subst h'
          exact hcond
      · exact Except.noConfusion h
    | null => exact Except.noConfusion h
    | bool b => exact Except.noConfusion h
    | str s => exact Except.noConfusion h
    | obj kvs => exact Except.noConfusion h

theorem checkInt_ok {fp : List String} {lo hi : Option ℤ} {d : ℤ}
    {v : Option JValue} {z : ℤ} (hd : withinZ lo hi d = true)
    (h : checkInt fp lo hi d v = .ok z) : withinZ lo hi z = true := by
  cases v with
  | none =>
    simp only [checkInt] at h
    injection h with h'
    subst h'
    exact hd
  | some w =>
    cases w with
    | num q' =>
      simp only [checkInt] at h
      split at h
      · next hcond =>
          injection h with h'
          subst h'
          simp only [Bool.and_eq_true, decide_eq_true_eq] at hcond
          exact hcond.2
      · exact Except.noConfusion h
    | null => exact Except.noConfusion h
    | bool b => exact Except.noConfusion h
    | str s => exact Except.noConfusion h
    | obj kvs => exact Except.noConfusion h

theorem checkOptInt_ok {fp : List String} {lo hi : Option ℤ}
    {d : Option ℤ} {v : Option JValue} {o : Option ℤ}
    (hd : d.all (fun z => withinZ lo hi z) = true)
    (h : checkOptInt fp lo hi d v = .ok o) :
    o.all (fun z => withinZ lo hi z) = true := by
  cases v with
  | none =>
    simp only [checkOptInt] at h
    injection h with h'
    subst h'
    exact hd
  | some w =>
    cases w with
    | null =>
      simp only [checkOptInt] at h
      injection h with h'
      subst h'
      rfl
    | num q' =>
      simp only [checkOptInt] at h
      split at h
      · next hcond =>
          injection h with h'
          subst h'
          simp only [Bool.and_eq_true, decide_eq_true_eq] at hcond
          simpa using hcond.2
      · exact Except.noConfusion h
    | bool b => exact Except.noConfusion h
    | str s => exact Except.noConfusion h
    | obj kvs => exact Except.noConfusion h

theorem subModel_ok {α : Type} {fp : List String} {dflt : α}
    {ofData : List String → JValue → Except (List String) α}
    {vo : Option JValue} {g : α} (h : subModel fp dflt ofData vo = .ok g) :
    g = dflt ∨ ∃ w, ofData fp w = .ok g := by
  cases vo with
  | none =>
    unfold subModel at h
    injection h with h'
    exact Or.inl h'.symm
  | some w => exact Or.inr ⟨w, h⟩

end PersonFromVid

namespace PersonFromVid

theorem modelConfigOfData_ok_inBounds {fp : List String} {v : JValue}
    {c : ModelConfig} (h : modelConfigOfData fp v = .ok c) :
    modelConfigInBounds c = true := by
  cases v with
  | obj kvs =>
    simp only [modelConfigOfData] at h
    obtain ⟨fdm, h1, h⟩ := exceptBind_ok h
    obtain ⟨pem, h2, h⟩ := exceptBind_ok h
    obtain ⟨hpm, h3, h⟩ := exceptBind_ok h
    obtain ⟨dev, h4, h⟩ := exceptBind_ok h
    obtain ⟨bs, h5, h⟩ := exceptBind_ok h
    obtain ⟨ct, h6, h⟩ := exceptBind_ok h
    injection h with h'
    subst h'
    simp only [modelConfigInBounds, Bool.and_eq_true]
    exact ⟨checkInt_ok (by decide) h5,
      checkFloat_ok (by simp [withinQ, Option.all] <;> norm_num) h6⟩
  | null => exact Except.noConfusion h
  | bool b => exact Except.noConfusion h
  | num q => exact Except.noConfusion h
  | str s => exact Except.noConfusion h

end PersonFromVid

namespace PersonFromVid

theorem frameExtractionConfigOfData_ok_inBounds {fp : List String}
    {v : JValue} {c : FrameExtractionConfig}
    (h : frameExtractionConfigOfData fp v = .ok c) :
    frameExtractionConfigInBounds c = true := by
  cases v with
  | obj kvs =>
    simp only [frameExtractionConfigOfData] at h
    obtain ⟨tsi, h1, h⟩ := exceptBind_ok h
    obtain ⟨ekd, h2, h⟩ := exceptBind_ok h
    obtain ⟨ets, h3, h⟩ := exceptBind_ok h
    obtain ⟨mfv, h4, h⟩ := exceptBind_ok h
    obtain ⟨de, h5, h⟩ := exceptBind_ok h
    injection h with h'
    subst h'
    simp only [frameExtractionConfigInBounds, Bool.and_eq_true]
    exact ⟨checkFloat_ok (by simp [withinQ, Option.all] <;> norm_num) h1,
      checkOptInt_ok
        (show Option.all (fun z => withinZ (some 10) none z) none = true
          from rfl) h4⟩
  | null => exact Except.noConfusion h
  | bool b => exact Except.noConfusion h
  | num q => exact Except.noConfusion h
  | str s => exact Except.noConfusion h

theorem qualityConfigOfData_ok_inBounds {fp : List String} {v : JValue}
    {c : QualityConfig} (h : qualityConfigOfData fp v = .ok c) :
    qualityConfigInBounds c = true := by
  cases v with
  | obj kvs =>
    simp only [qualityConfigOfData] at h
    obtain ⟨bt, h1, h⟩ := exceptBind_ok h
    obtain ⟨bmin, h2, h⟩ := exceptBind_ok h
    obtain ⟨bmax, h3, h⟩ := exceptBind_ok h
    obtain ⟨cmin, h4, h⟩ := exceptBind_ok h
    obtain ⟨emm, h5, h⟩ := exceptBind_ok h
    injection h with h'
    subst h'
    simp only [qualityConfigInBounds, Bool.and_eq_true]
    exact ⟨⟨⟨checkFloat_ok (by simp [withinQ, Option.all] <;> norm_num) h1,
      checkFloat_ok (by simp [withinQ, Option.all] <;> norm_num) h2⟩,
      checkFloat_ok (by simp [withinQ, Option.all] <;> norm_num) h3⟩,
      checkFloat_ok (by simp [withinQ, Option.all] <;> norm_num) h4⟩
  | null => exact Except.noConfusion h
  | bool b => exact Except.noConfusion h
  | num q => exact Except.noConfusion h
  | str s => exact Except.noConfusion h

theorem poseClassificationConfigOfData_ok_inBounds {fp : List String}
    {v : JValue} {c : PoseClassificationConfig}
    (h : poseClassificationConfigOfData fp v = .ok c) :
    poseClassificationConfigInBounds c = true := by
  cases v with
  | obj kvs =>
    simp only [poseClassificationConfigOfData] at h
    obtain ⟨a, h1, h⟩ := exceptBind_ok h
    obtain ⟨b, h2, h⟩ := exceptBind_ok h
    obtain ⟨c', h3, h⟩ := exceptBind_ok h
    obtain ⟨d, h4, h⟩ := exceptBind_ok h
    obtain ⟨e, h5, h⟩ := exceptBind_ok h
    injection h with h'
    subst h'
    simp only [poseClassificationConfigInBounds, Bool.and_eq_true]
    exact ⟨⟨⟨⟨checkFloat_ok (by simp [withinQ, Option.all] <;> norm_num) h1,
      checkFloat_ok (by simp [withinQ, Option.all] <;> norm_num) h2⟩,
      checkFloat_ok (by simp [withinQ, Option.all] <;> norm_num) h3⟩,
      checkFloat_ok (by simp [withinQ, Option.all] <;> norm_num) h4⟩,
      checkFloat_ok (by simp [withinQ, Option.all] <;> norm_num) h5⟩
  | null => exact Except.noConfusion h
  | bool b => exact Except.noConfusion h
  | num q => exact Except.noConfusion h
  | str s => exact Except.noConfusion h

theorem headAngleConfigOfData_ok_inBounds {fp : List String} {v : JValue}
    {c : HeadAngleConfig} (h : headAngleConfigOfData fp v = .ok c) :
    headAngleConfigInBounds c = true := by
  cases v with
  | obj kvs =>
    simp only [headAngleConfigOfData] at h
    obtain ⟨a, h1, h⟩ := exceptBind_ok h
    obtain ⟨b, h2, h⟩ := exceptBind_ok h
    obtain ⟨c', h3, h⟩ := exceptBind_ok h
    obtain ⟨d, h4, h⟩ := exceptBind_ok h
    injection h with h'
    subst h'
    simp only [headAngleConfigInBounds, Bool.and_eq_true]
    exact ⟨⟨⟨checkFloat_ok (by simp [withinQ, Option.all] <;> norm_num) h1,
      checkFloat_ok (by simp [withinQ, Option.all] <;> norm_num) h2⟩,
      checkFloat_ok (by simp [withinQ, Option.all] <;> norm_num) h3⟩,
      checkFloat_ok (by simp [withinQ, Option.all] <;> norm_num) h4⟩
  | null => exact Except.noConfusion h
  | bool b => exact Except.noConfusion h
  | num q => exact Except.noConfusion h
  | str s => exact Except.noConfusion h

theorem closeupDetectionConfigOfData_ok_inBounds {fp : List String}
    {v : JValue} {c : CloseupDetectionConfig}
    (h : closeupDetectionConfigOfData fp v = .ok c) :
    closeupDetectionConfigInBounds c = true := by
  cases v with
  | obj kvs =>
    simp only [closeupDetectionConfigOfData] at h
    obtain ⟨a, h1, h⟩ := exceptBind_ok h
    obtain ⟨b, h2, h⟩ := exceptBind_ok h
    obtain ⟨c', h3, h⟩ := exceptBind_ok h
    obtain ⟨d, h4, h⟩ := exceptBind_ok h
    obtain ⟨e, h5, h⟩ := exceptBind_ok h
    obtain ⟨f, h6, h⟩ := exceptBind_ok h
    obtain ⟨g, h7, h⟩ := exceptBind_ok h
    injection h with h'
    subst h'
    simp only [closeupDetectionConfigInBounds, Bool.and_eq_true]
    exact ⟨⟨⟨⟨checkFloat_ok (by simp [withinQ, Option.all] <;> norm_num) h1,
      checkFloat_ok (by simp [withinQ, Option.all] <;> norm_num) h2⟩,
      checkFloat_ok (by simp [withinQ, Option.all] <;> norm_num) h3⟩,
      checkFloat_ok (by simp [withinQ, Option.all] <;> norm_num) h4⟩,
      checkFloat_ok (by simp [withinQ, Option.all] <;> norm_num) h5⟩
  | null => exact Except.noConfusion h
  | bool b => exact Except.noConfusion h
  | num q => exact Except.noConfusion h
  | str s => exact Except.noConfusion h

theorem frameSelectionConfigOfData_ok_inBounds {fp : List String}
    {v : JValue} {c : FrameSelectionConfig}
    (h : frameSelectionConfigOfData fp v = .ok c) :
    frameSelectionConfigInBounds c = true := by
  cases v with
  | obj kvs =>
    simp only [frameSelectionConfigOfData] at h
    obtain ⟨mqt, h1, h⟩ := exceptBind_ok h
    obtain ⟨fsw, h2, h⟩ := exceptBind_ok h
    obtain ⟨qw, h3, h⟩ := exceptBind_ok h
    split at h
    · exact Except.noConfusion h
    · obtain ⟨dt, h4, h⟩ := exceptBind_ok h
      injection h with h'
      subst h'
      simp only [frameSelectionConfigInBounds, Bool.and_eq_true]
      exact ⟨⟨⟨checkFloat_ok (by simp [withinQ, Option.all] <;> norm_num) h1,
        checkFloat_ok (by simp [withinQ, Option.all] <;> norm_num) h2⟩,
        checkFloat_ok (by simp [withinQ, Option.all] <;> norm_num) h3⟩,
        checkFloat_ok (by simp [withinQ, Option.all] <;> norm_num) h4⟩
  | null => exact Except.noConfusion h
  | bool b => exact Except.noConfusion h
  | num q => exact Except.noConfusion h
  | str s => exact Except.noConfusion h

end PersonFromVid

namespace PersonFromVid

theorem jpegConfigOfData_ok_inBounds {fp : List String} {v : JValue}
    {c : JpegConfig} (h : jpegConfigOfData fp v = .ok c) :
    withinZ (some 70) (some 100) c.quality = true := by
  cases v with
  | obj kvs =>
    simp only [jpegConfigOfData] at h
    obtain ⟨q, h1, h⟩ := exceptBind_ok h
    injection h with h'
    subst h'
    exact checkInt_ok (by decide) h1
  | null => exact Except.noConfusion h
  | bool b => exact Except.noConfusion h
  | num q => exact Except.noConfusion h
  | str s => exact Except.noConfusion h

theorem outputImageConfigOfData_ok_inBounds {fp : List String} {v : JValue}
    {c : OutputImageConfig} (h : outputImageConfigOfData fp v = .ok c) :
    outputImageConfigInBounds c = true := by
  cases v with
  | obj kvs =>
    simp only [outputImageConfigOfData] at h
    obtain ⟨fmt, h1, h⟩ := exceptBind_ok h
    obtain ⟨fce, h2, h⟩ := exceptBind_ok h
    obtain ⟨ffe, h3, h⟩ := exceptBind_ok h
    obtain ⟨fcp, h4, h⟩ := exceptBind_ok h
    obtain ⟨rsz, h5, h⟩ := exceptBind_ok h
    obtain ⟨png, h6, h⟩ := exceptBind_ok h
    obtain ⟨jpeg, h7, h⟩ := exceptBind_ok h
    injection h with h'
    subst h'
    simp only [outputImageConfigInBounds, Bool.and_eq_true]
    refine ⟨⟨checkFloat_ok (by simp [withinQ, Option.all] <;> norm_num) h4,
      checkOptInt_ok
        (show Option.all (fun z => withinZ (some 256) (some 4096) z) none =
          true from rfl) h5⟩, ?_⟩
    rcases subModel_ok h7 with hdef | ⟨w, hw⟩
    · subst hdef; decide
    · exact jpegConfigOfData_ok_inBounds hw
  | null => exact Except.noConfusion h
  | bool b => exact Except.noConfusion h
  | num q => exact Except.noConfusion h
  | str s => exact Except.noConfusion h

theorem outputConfigOfData_ok_inBounds {fp : List String} {v : JValue}
    {c : OutputConfig} (h : outputConfigOfData fp v = .ok c) :
    outputConfigInBounds c = true := by
  cases v with
  | obj kvs =>
    simp only [outputConfigOfData] at h
    obtain ⟨mfc, h1, h⟩ := exceptBind_ok h
    obtain ⟨pm, h2, h⟩ := exceptBind_ok h
    obtain ⟨img, h3, h⟩ := exceptBind_ok h
    injection h with h'
    subst h'
    simp only [outputConfigInBounds, Bool.and_eq_true]
    refine ⟨checkInt_ok (by decide) h1, ?_⟩
    rcases subModel_ok h3 with hdef | ⟨w, hw⟩
    · subst hdef
      simp [outputImageConfigInBounds, defaultOutputImageConfig,
        defaultJpegConfig, withinQ, withinZ, Option.all] <;> norm_num
    · exact outputImageConfigOfData_ok_inBounds hw
  | null => exact Except.noConfusion h
  | bool b => exact Except.noConfusion h
  | num q => exact Except.noConfusion h
  | str s => exact Except.noConfusion h

theorem storageConfigOfData_ok_inBounds {fp : List String} {v : JValue}
    {c : StorageConfig} (h : storageConfigOfData fp v = .ok c) :
    storageConfigInBounds c = true := by
  cases v with
  | obj kvs =>
    simp only [storageConfigOfData] at h
    obtain ⟨cd, h1, h⟩ := exceptBind_ok h
    obtain ⟨td, h2, h⟩ := exceptBind_ok h
    obtain ⟨cts, h3, h⟩ := exceptBind_ok h
    obtain ⟨ctf, h4, h⟩ := exceptBind_ok h
    obtain ⟨kt, h5, h⟩ := exceptBind_ok h
    obtain ⟨ftc, h6, h⟩ := exceptBind_ok h
    obtain ⟨mcs, h7, h⟩ := exceptBind_ok h
    injection h with h'
    subst h'
    exact checkFloat_ok (by simp [withinQ, Option.all] <;> norm_num) h7
  | null => exact Except.noConfusion h
  | bool b => exact Except.noConfusion h
  | num q => exact Except.noConfusion h
  | str s => exact Except.noConfusion h

theorem processingConfigOfData_ok_inBounds {fp : List String} {v : JValue}
    {c : ProcessingConfig} (h : processingConfigOfData fp v = .ok c) :
    processingConfigInBounds c = true := by
  cases v with
  | obj kvs =>
    simp only [processingConfigOfData] at h
    obtain ⟨er, h1, h⟩ := exceptBind_ok h
    obtain ⟨sir, h2, h⟩ := exceptBind_ok h
    obtain ⟨mpt, h3, h⟩ := exceptBind_ok h
    obtain ⟨pw, h4, h⟩ := exceptBind_ok h
    injection h with h'
    subst h'
    simp only [processingConfigInBounds, Bool.and_eq_true]
    exact ⟨checkOptInt_ok
      (show Option.all (fun z => withinZ (some 1) none z) none = true
        from rfl) h3,
      checkInt_ok (by decide) h4⟩
  | null => exact Except.noConfusion h
  | bool b => exact Except.noConfusion h
  | num q => exact Except.noConfusion h
  | str s => exact Except.noConfusion h

end PersonFromVid

namespace PersonFromVid

theorem defaultModelConfig_inBounds :
    modelConfigInBounds defaultModelConfig = true := by
  simp [modelConfigInBounds, defaultModelConfig, withinQ, withinZ,
    Option.all] <;> norm_num

theorem defaultFrameExtractionConfig_inBounds :
    frameExtractionConfigInBounds defaultFrameExtractionConfig = true := by
  simp [frameExtractionConfigInBounds, defaultFrameExtractionConfig,
    withinQ, withinZ, Option.all] <;> norm_num

theorem defaultQualityConfig_inBounds :
    qualityConfigInBounds defaultQualityConfig = true := by
  simp [qualityConfigInBounds, defaultQualityConfig, withinQ, Option.all]
    <;> norm_num

theorem defaultPoseClassificationConfig_inBounds :
    poseClassificationConfigInBounds defaultPoseClassificationConfig =
      true := by
  simp [poseClassificationConfigInBounds, defaultPoseClassificationConfig,
    withinQ, Option.all] <;> norm_num

theorem defaultHeadAngleConfig_inBounds :
    headAngleConfigInBounds defaultHeadAngleConfig = true := by
  simp [headAngleConfigInBounds, defaultHeadAngleConfig, withinQ,
    Option.all] <;> norm_num

theorem defaultCloseupDetectionConfig_inBounds :
    closeupDetectionConfigInBounds defaultCloseupDetectionConfig = true := by
  simp [closeupDetectionConfigInBounds, defaultCloseupDetectionConfig,
    withinQ, Option.all] <;> norm_num

theorem defaultFrameSelectionConfig_inBounds :
    frameSelectionConfigInBounds defaultFrameSelectionConfig = true := by
  simp [frameSelectionConfigInBounds, defaultFrameSelectionConfig, withinQ,
    Option.all] <;> norm_num

theorem defaultOutputConfig_inBounds :
    outputConfigInBounds defaultOutputConfig = true := by
  simp [outputConfigInBounds, outputImageConfigInBounds,
    defaultOutputConfig, defaultOutputImageConfig, defaultJpegConfig,
    withinQ, withinZ, Option.all] <;> norm_num

theorem defaultStorageConfig_inBounds :
    storageConfigInBounds defaultStorageConfig = true := by
  simp [storageConfigInBounds, defaultStorageConfig, withinQ, Option.all]
    <;> norm_num

theorem defaultProcessingConfig_inBounds :
    processingConfigInBounds defaultProcessingConfig = true := by
  simp [processingConfigInBounds, defaultProcessingConfig, withinZ,
    Option.all] <;> norm_num

/-- Validation soundness: a `Config` accepted by `configValidate`
satisfies every declared per-field bound. -/
theorem configValidate_ok_inBounds {v : JValue} {c : Config}
    (h : configValidate v = .ok c) : configInBounds c = true := by
  cases v with
  | obj kvs =>
    simp only [configValidate] at h
    obtain ⟨models, h1, h⟩ := exceptBind_ok h
    obtain ⟨fe, h2, h⟩ := exceptBind_ok h
    obtain ⟨q, h3, h⟩ := exceptBind_ok h
    obtain ⟨pc, h4, h⟩ := exceptBind_ok h
    obtain ⟨ha, h5, h⟩ := exceptBind_ok h
    obtain ⟨cd, h6, h⟩ := exceptBind_ok h
    obtain ⟨fs, h7, h⟩ := exceptBind_ok h
    obtain ⟨op, h8, h⟩ := exceptBind_ok h
    obtain ⟨st, h9, h⟩ := exceptBind_ok h
    obtain ⟨pr, h10, h⟩ := exceptBind_ok h
    obtain ⟨lg, h11, h⟩ := exceptBind_ok h
    injection h with h'
    subst h'
    simp only [configInBounds, Bool.and_eq_true]
    refine ⟨⟨⟨⟨⟨⟨⟨⟨⟨?_, ?_⟩, ?_⟩, ?_⟩, ?_⟩, ?_⟩, ?_⟩, ?_⟩, ?_⟩, ?_⟩
    · rcases subModel_ok h1 with hd | ⟨w, hw⟩
      · subst hd; exact defaultModelConfig_inBounds
      · exact modelConfigOfData_ok_inBounds hw
    · rcases subModel_ok h2 with hd | ⟨w, hw⟩
      · subst hd; exact defaultFrameExtractionConfig_inBounds
      · exact frameExtractionConfigOfData_ok_inBounds hw
    · rcases subModel_ok h3 with hd | ⟨w, hw⟩
      · subst hd; exact defaultQualityConfig_inBounds
      · exact qualityConfigOfData_ok_inBounds hw
    · rcases subModel_ok h4 with hd | ⟨w, hw⟩
      · subst hd; exact defaultPoseClassificationConfig_inBounds
      · exact poseClassificationConfigOfData_ok_inBounds hw
    · rcases subModel_ok h5 with hd | ⟨w, hw⟩
      · subst hd; exact defaultHeadAngleConfig_inBounds
      · exact headAngleConfigOfData_ok_inBounds hw
    · rcases subModel_ok h6 with hd | ⟨w, hw⟩
      · subst hd; exact defaultCloseupDetectionConfig_inBounds
      · exact closeupDetectionConfigOfData_ok_inBounds hw
    · rcases subModel_ok h7 with hd | ⟨w, hw⟩
      · subst hd; exact defaultFrameSelectionConfig_inBounds
      · exact frameSelectionConfigOfData_ok_inBounds hw
    · rcases subModel_ok h8 with hd | ⟨w, hw⟩
      · subst hd; exact defaultOutputConfig_inBounds
      · exact outputConfigOfData_ok_inBounds hw
    · rcases subModel_ok h9 with hd | ⟨w, hw⟩
      · subst hd; exact defaultStorageConfig_inBounds
      · exact storageConfigOfData_ok_inBounds hw
    · rcases subModel_ok h10 with hd | ⟨w, hw⟩
      · subst hd; exact defaultProcessingConfig_inBounds
      · exact processingConfigOfData_ok_inBounds hw
  | null => exact Except.noConfusion h
  | bool b => exact Except.noConfusion h
  | num q => exact Except.noConfusion h
  | str s => exact Except.noConfusion h

/-- Every error produced by `Config(**data)` is a validation error
carrying a field location. -/
theorem configFromData_error_shape {v : JValue} {e : ConfigError}
    (h : configFromData v = .error e) : ∃ p, e = .validationError p := by
  unfold configFromData at h
  cases hv : configValidate v with
  | ok c => rw [hv] at h; exact Except.noConfusion h
  | error p =>
    rw [hv] at h
    injection h with h'
    exact ⟨p, h'.symm⟩

end PersonFromVid

namespace PersonFromVid

/-- Claim C6: `from_file` errors and validation.  A missing path is a
not-found error (no fallback to defaults); an existing path parses for the
`.yaml`/`.yml`/`.json` extensions and any other extension is an
unsupported-format error; every accepted configuration satisfies the
declared bounds (so an out-of-bounds or mistyped field cannot slip
through), every validation failure is a `ValidationError` carrying the
offending field's location, and the three concrete failure modes — out of
bounds, mistyped, weight-sum violation — each identify the offending
field. -/
theorem from_file_errors_and_validation :
    (∀ (fs : List (String × JValue)) (path : String),
      fs.find? (fun p => p.1 == path) = none →
      fromFile fs path = .error (.notFound path)) ∧
    (∀ (fs : List (String × JValue)) (path : String)
      (entry : String × JValue),
      fs.find? (fun p => p.1 == path) = some entry →
      (pathSuffixLower path = pstr ".yaml" ∨
       pathSuffixLower path = pstr ".yml" ∨
       pathSuffixLower path = pstr ".json") →
      fromFile fs path = configFromData entry.2) ∧
    (∀ (fs : List (String × JValue)) (path : String)
      (entry : String × JValue),
      fs.find? (fun p => p.1 == path) = some entry →
      ¬(pathSuffixLower path = pstr ".yaml" ∨
        pathSuffixLower path = pstr ".yml" ∨
        pathSuffixLower path = pstr ".json") →
      fromFile fs path =
        .error (.unsupportedFormat (String.mk (pathSuffixLower path)))) ∧
    (∀ (v : JValue) (c : Config),
      configFromData v = .ok c → configInBounds c = true) ∧
    (∀ (v : JValue) (e : ConfigError),
      configFromData v = .error e → ∃ p, e = .validationError p) ∧
    configFromData (.obj [("models", .obj [("batch_size", .num 100)])]) =
      .error (.validationError ["models", "batch_size"]) ∧
    configFromData (.obj [("models", .obj [("batch_size", .str "fast")])]) =
      .error (.validationError ["models", "batch_size"]) ∧
    configFromData (.obj [("frame_selection",
        .obj [("face_size_weight", .num (6/10)),
              ("quality_weight", .num (5/10))])]) =
      .error (.validationError ["frame_selection", "quality_weight"]) := by
  refine ⟨?_, ?_, ?_, ?_, ?_, ?_, ?_, ?_⟩
  · intro fs path h
    unfold fromFile
    rw [h]
    rfl
  · intro fs path entry h hext
    unfold fromFile
    rw [h]
    rcases hext with he | he | he
    · rw [he]
      show (if pstr ".yaml" = pstr ".yaml" ∨ pstr ".yaml" = pstr ".yml"
        then _ else _) = _
      rw [if_pos (Or.inl rfl)]
    · rw [he]
      show (if pstr ".yml" = pstr ".yaml" ∨ pstr ".yml" = pstr ".yml"
        then _ else _) = _
      rw [if_pos (Or.inr rfl)]
    · rw [he]
      show (if pstr ".json" = pstr ".yaml" ∨ pstr ".json" = pstr ".yml"
        then _ else if pstr ".json" = pstr ".json" then _ else _) = _
      rw [if_neg (by decide), if_pos rfl]
  · intro fs path entry h hne
    push_neg at hne
    unfold fromFile
    rw [h]
    show (if pathSuffixLower path = pstr ".yaml" ∨
        pathSuffixLower path = pstr ".yml" then _
      else if pathSuffixLower path = pstr ".json" then _ else _) = _
    rw [if_neg (not_or.2 ⟨hne.1, hne.2.1⟩), if_neg hne.2.2]
  · intro v c h
    unfold configFromData at h
    cases hv : configValidate v with
    | ok c' =>
      rw [hv] at h
      injection h with h'
      subst h'
      exact configValidate_ok_inBounds hv
    | error p =>
      rw [hv] at h
      exact Except.noConfusion h
  · intro v e h
    exact configFromData_error_shape h
  · have hchk : checkInt (["models"] ++ ["batch_size"]) (some 1) (some 64)
        1 (some (.num 100)) = .error (["models"] ++ ["batch_size"]) := by
      simp only [checkInt]
      rw [if_neg]
      simp [withinZ]
    have step : configValidate
        (.obj [("models", .obj [("batch_size", .num 100)])]) =
        (checkInt (["models"] ++ ["batch_size"]) (some 1) (some 64) 1
          (some (.num 100))).bind (fun bs =>
        .ok { defaultConfig with
              models := { defaultModelConfig with batch_size := bs } })
        := rfl
    unfold configFromData
    rw [step, hchk]
    rfl
  · rfl
  · have step : configValidate (.obj [("frame_selection",
        .obj [("face_size_weight", .num (6/10)),
              ("quality_weight", .num (5/10))])]) =
        (frameSelectionConfigOfData ["frame_selection"]
          (.obj [("face_size_weight", .num (6/10)),
                 ("quality_weight", .num (5/10))])).bind (fun fs =>
        .ok { defaultConfig with frame_selection := fs }) := rfl
    unfold configFromData
    rw [step,
      frameSelection_both_weights (6/10) (5/10)
        ((withinQ_unit_iff _).2 ⟨by norm_num, by norm_num⟩)
        ((withinQ_unit_iff _).2 ⟨by norm_num, by norm_num⟩),
      if_pos (by norm_num)]
    rfl

/-- Witness for C6: a missing configuration file surfaces a not-found
error rather than silently falling back to defaults. -/
theorem from_file_errors_and_validation_witness :
    fromFile [] "absent.yaml" = .error (.notFound "absent.yaml") :=
  from_file_errors_and_validation.1 [] "absent.yaml" rfl

end PersonFromVid
